import Mathlib

/-
  Verification of the command-buffer resource-patching and synchronization
  utilities of the media HAL
  (src/media_softlet/agnostic/common/hw/mhw_utilities_next.cpp).

  Shallow embedding conventions:
  * machine integers are Nat with explicit reductions mod 2^32 / 2^64 where
    the C code can overflow;
  * pointers into the command buffer are DWORD indices into a total map
    `Nat → Nat`; the MOCS destination (`mocsParams.mocsTableIndex`) is kept
    as a separate optional cell, `none` modelling a null pointer;
  * the device layer (MOS interface function pointers) is a record of the
    values and statuses each callback returns;
  * status-returning C functions become Lean functions returning a
    MOS_STATUS paired with the updated state.
-/

inductive MOS_STATUS where
  | MOS_STATUS_SUCCESS : MOS_STATUS
  | MOS_STATUS_NULL_POINTER : MOS_STATUS
  | MOS_STATUS_INVALID_PARAMETER : MOS_STATUS
  | MOS_STATUS_UNKNOWN : MOS_STATUS
  | MOS_STATUS_NO_SPACE : MOS_STATUS
deriving DecidableEq, Repr

open MOS_STATUS

/-- C bitwise complement `~x` on a `uint32_t` value: xor with the all-ones
32-bit word (the argument is first truncated to 32 bits). -/
def bitnot32 (x : Nat) : Nat := (x % 2^32) ^^^ (2^32 - 1)

/-- `MOS_ALIGN_CEIL(x, a)` evaluated at `uint32_t`:
`((x + a - 1) & ~(a - 1))` with 32-bit wraparound on the addition.
`a` is a power of two in every use in this file. -/
def MOS_ALIGN_CEIL32 (x a : Nat) : Nat := ((x + (a - 1)) % 2^32) &&& bitnot32 (a - 1)

/-- `(uint32_t)(-1 << n)`: the 32-bit mask whose bits `n..31` are set
(`dwMask = (-1 << pParams->dwLsbNum)` in Mhw_AddResourceToCmd_GfxAddress). -/
def minusOneShl32 (n : Nat) : Nat := (2^32 - 2^n) % 2^32

/-- `MHW_MOCS_PARAMS`: destination DWORD (null or its current value) together
with the destination bit-field bounds. -/
structure MHW_MOCS_PARAMS where
  mocsTableIndex : Option Nat
  bitFieldLow : Nat
  bitFieldHigh : Nat
deriving DecidableEq, Repr

/-- The slice of the MOS interface consumed by Mhw_SetMocsTableIndex: the
cache-policy control DWORD returned by
`pfnGetResourceCachePolicyMemoryObject` for the given resource. -/
structure MocsOsInterface where
  cachePolicyDwordValue : Nat
deriving DecidableEq, Repr

/-- Embedding of `Mhw_SetMocsTableIndex` (mhw_utilities_next.cpp lines
75-123).  Returns the status and the final contents of the destination
cell.  A `none` destination models the null-pointer early-success path. -/
def Mhw_SetMocsTableIndex (os : MocsOsInterface) (mocsParams : MHW_MOCS_PARAMS) :
    MOS_STATUS × Option Nat :=
  -- const uint8_t indexBitFieldLow = 1; const uint8_t indexMask = 0x3F;
  match mocsParams.mocsTableIndex with
  | none => (MOS_STATUS_SUCCESS, none)      -- "skip to set the mocs"
  | some value =>
    if mocsParams.bitFieldLow > mocsParams.bitFieldHigh ∨ mocsParams.bitFieldHigh > 31 then
      (MOS_STATUS_INVALID_PARAMETER, some value)
    else
      let memObjCtrlStateValue := (os.cachePolicyDwordValue >>> 1) &&& 0x3F
      let mask :=
        if mocsParams.bitFieldHigh == 31 then
          2^mocsParams.bitFieldLow - 1
        else
          (bitnot32 (2^(mocsParams.bitFieldHigh + 1) - 1)) ||| (2^mocsParams.bitFieldLow - 1)
      (MOS_STATUS_SUCCESS,
        some ((value &&& mask) ||| (memObjCtrlStateValue <<< mocsParams.bitFieldLow)))

/- Bit-level facts about the 32-bit helpers. -/

theorem bitnot32_testBit (x i : Nat) :
    (bitnot32 x).testBit i = (decide (i < 32) && !(x.testBit i)) := by
  unfold bitnot32
  rw [Nat.testBit_xor, Nat.testBit_mod_two_pow, Nat.testBit_two_pow_sub_one]
  by_cases h : i < 32 <;> by_cases hx : x.testBit i <;> simp [h, hx]

theorem minusOneShl32_eq (n : Nat) (h : n ≤ 31) : minusOneShl32 n = (2^(32-n) - 1) <<< n := by
  have hpow : 2^(32-n) * 2^n = 2^32 := by
    rw [← pow_add]; congr 1; omega
  have h1 : (1:Nat) ≤ 2^n := Nat.one_le_two_pow
  have h2 : 2^n ≤ 2^32 := Nat.pow_le_pow_right (by norm_num) (by omega)
  unfold minusOneShl32
  rw [Nat.shiftLeft_eq, Nat.sub_mul, one_mul, hpow, Nat.mod_eq_of_lt (by omega)]

theorem minusOneShl32_testBit (n i : Nat) (h : n ≤ 31) :
    (minusOneShl32 n).testBit i = (decide (n ≤ i) && decide (i < 32)) := by
  rw [minusOneShl32_eq n h, Nat.testBit_shiftLeft, Nat.testBit_two_pow_sub_one]
  by_cases h1 : n ≤ i <;> by_cases h2 : i < 32 <;>
    simp [h1, h2] <;> omega

theorem shl_testBit_low (idx low i : Nat) (hi : i < low) :
    (idx <<< low).testBit i = false := by
  rw [Nat.testBit_shiftLeft]
  simp [Nat.not_le.mpr hi]

theorem shl_testBit_high (idx low w i : Nat) (h : idx < 2^w) (hi : low + w ≤ i) :
    (idx <<< low).testBit i = false := by
  rw [Nat.testBit_shiftLeft]
  have hb : idx.testBit (i - low) = false :=
    Nat.testBit_eq_false_of_lt
      (lt_of_lt_of_le h (Nat.pow_le_pow_right (by norm_num) (by omega)))
  simp [hb]

/-- C8: for every bit-range descriptor with `bitFieldLow > bitFieldHigh` or
`bitFieldHigh > 31` and every non-null destination, `Mhw_SetMocsTableIndex`
returns `MOS_STATUS_INVALID_PARAMETER` and leaves the destination DWORD
unmodified. -/
theorem C8_mocs_invalid_range_rejected (os : MocsOsInterface) (v low high : Nat)
    (h : low > high ∨ high > 31) :
    Mhw_SetMocsTableIndex os ⟨some v, low, high⟩ = (MOS_STATUS_INVALID_PARAMETER, some v) := by
  simp only [Mhw_SetMocsTableIndex]
  rw [if_pos h]

/-- Witness for C8 at `low = 5 > high = 2`, destination DWORD 7. -/
theorem C8_mocs_invalid_range_rejected_witness :
    ((5:Nat) > 2 ∨ (2:Nat) > 31) ∧
      Mhw_SetMocsTableIndex ⟨0⟩ ⟨some 7, 5, 2⟩ = (MOS_STATUS_INVALID_PARAMETER, some 7) :=
  ⟨Or.inl (by decide), C8_mocs_invalid_range_rejected ⟨0⟩ 7 5 2 (Or.inl (by decide))⟩

/-- C3 counterexample: with the valid bit range `[0, 0]` and a cache-policy
control value whose extracted MOCS index is 2, merging into the DWORD 0
produces 2 — bit 1, which lies strictly above `bitFieldHigh = 0` and hence
outside the designated range, changes from 0 to 1. -/
theorem C3_mocs_counterexample :
    Mhw_SetMocsTableIndex ⟨4⟩ ⟨some 0, 0, 0⟩ = (MOS_STATUS_SUCCESS, some 2) ∧
    Nat.testBit 2 1 = true ∧ Nat.testBit 0 1 = false := by
  refine ⟨?_, by decide, by decide⟩
  decide

/-- C3 (amended): for every valid bit range and 32-bit destination DWORD,
`Mhw_SetMocsTableIndex` succeeds and leaves every bit outside
`[bitFieldLow, bitFieldHigh]` unchanged, provided the extracted 6-bit MOCS
index fits into the width of the range (always the case when the range is
at least 6 bits wide); without that proviso the index can carry into bits
above `bitFieldHigh` (see the counterexample). -/
theorem C3_mocs_outside_range_preserved (os : MocsOsInterface) (v low high i : Nat)
    (hlh : low ≤ high) (hh : high ≤ 31) (hv : v < 2^32)
    (hidx : ((os.cachePolicyDwordValue >>> 1) &&& 0x3F) < 2^(high - low + 1))
    (hi : i < low ∨ high < i) :
    (Mhw_SetMocsTableIndex os ⟨some v, low, high⟩).1 = MOS_STATUS_SUCCESS ∧
    ((Mhw_SetMocsTableIndex os ⟨some v, low, high⟩).2.getD 0).testBit i = v.testBit i := by
  have hcond : ¬(low > high ∨ high > 31) := by omega
  simp only [Mhw_SetMocsTableIndex, hcond, if_false]
  refine ⟨trivial, ?_⟩
  simp only [Option.getD_some]
  set idx := (os.cachePolicyDwordValue >>> 1) &&& 0x3F with hidxdef
  by_cases h32 : i < 32
  · -- below 32 the mask keeps every out-of-range bit, and the shifted index
    -- contributes nothing outside [low, high]
    have hshl : (idx <<< low).testBit i = false := by
      rcases hi with hi | hi
      · exact shl_testBit_low idx low i hi
      · exact shl_testBit_high idx low (high - low + 1) i hidx (by omega)
    by_cases hhigh : high = 31
    · subst hhigh
      have hil : i < low := by omega
      rw [if_pos (by simp), Nat.testBit_lor, Nat.testBit_land, hshl,
        Nat.testBit_two_pow_sub_one]
      simp [hil]
    · rw [if_neg (by simp [hhigh]), Nat.testBit_lor, Nat.testBit_land, hshl,
        Nat.testBit_lor, bitnot32_testBit, Nat.testBit_two_pow_sub_one,
        Nat.testBit_two_pow_sub_one]
      rcases hi with hi | hi
      · simp [hi, h32]
      · have h1 : ¬ i < high + 1 := by omega
        have h2 : ¬ i < low := by omega
        simp [h1, h2, h32]
  · -- at or above bit 32 both sides are false: the merged word is < 2^32
    have hvi : v.testBit i = false :=
      Nat.testBit_eq_false_of_lt
        (lt_of_lt_of_le hv (Nat.pow_le_pow_right (by norm_num) (by omega)))
    have hshl : (idx <<< low).testBit i = false :=
      shl_testBit_high idx low (high - low + 1) i hidx (by omega)
    rw [Nat.testBit_lor, Nat.testBit_land, hvi, hshl]
    simp

/-- Witness for the amended C3: range `[1, 6]`, destination DWORD
`0xFFFFFFFF`, control value `0x7E` (extracted index `0x3F`); bit 7 (outside
the range) is preserved. -/
theorem C3_mocs_outside_range_preserved_witness :
    ((1:Nat) ≤ 6 ∧ (6:Nat) ≤ 31 ∧ (0xFFFFFFFF:Nat) < 2^32 ∧
      (((0x7E:Nat) >>> 1) &&& 0x3F) < 2^(6 - 1 + 1) ∧ ((7:Nat) < 1 ∨ (6:Nat) < 7)) ∧
    (Mhw_SetMocsTableIndex ⟨0x7E⟩ ⟨some 0xFFFFFFFF, 1, 6⟩).1 = MOS_STATUS_SUCCESS ∧
    ((Mhw_SetMocsTableIndex ⟨0x7E⟩ ⟨some 0xFFFFFFFF, 1, 6⟩).2.getD 0).testBit 7 =
      Nat.testBit 0xFFFFFFFF 7 :=
  ⟨⟨by decide, by decide, by decide, by decide, Or.inr (by decide)⟩,
    C3_mocs_outside_range_preserved ⟨0x7E⟩ 0xFFFFFFFF 1 6 7
      (by decide) (by decide) (by decide) (by decide) (Or.inr (by decide))⟩

/- ------------------------------------------------------------------ -/
/- Resource address patcher: Mhw_AddResourceToCmd_GfxAddress and      -/
/- Mhw_AddResourceToCmd_PatchList                                     -/
/- ------------------------------------------------------------------ -/

/-- `MOS_PATCH_TYPE`: only the three special variants that bypass the normal
offset computation are distinguished; every other enumerator behaves like
the default. -/
inductive MOS_PATCH_TYPE where
  | MOS_PATCH_TYPE_BASE_ADDRESS : MOS_PATCH_TYPE
  | MOS_PATCH_TYPE_PITCH : MOS_PATCH_TYPE
  | MOS_PATCH_TYPE_UV_Y_OFFSET : MOS_PATCH_TYPE
  | MOS_PATCH_TYPE_V_Y_OFFSET : MOS_PATCH_TYPE
  | MOS_PATCH_TYPE_UPPER_BOUND : MOS_PATCH_TYPE
deriving DecidableEq, Repr

open MOS_PATCH_TYPE

/-- `MHW_RESOURCE_PARAMS`: the caller-supplied patching request.  The raw
pointer `pdwCmd` into the command buffer is modelled as the DWORD index
`cmdIdx`; `presResource` is implicit in the `PatchOsInterface` record that
answers the per-resource queries. -/
structure MHW_RESOURCE_PARAMS where
  dwOffset : Nat
  dwLsbNum : Nat
  dwLocationInCmd : Nat
  dwSize : Nat
  bIsWritable : Bool
  dwOffsetInSSH : Nat
  dwUpperBoundLocationOffsetFromCmd : Nat
  dwSharedMocsOffset : Nat
  HwCommandType : Nat
  patchType : MOS_PATCH_TYPE
  shiftAmount : Nat
  shiftDirection : Nat
  cmdIdx : Nat
  mocsParams : MHW_MOCS_PARAMS
deriving DecidableEq, Repr

/-- `MOS_COMMAND_BUFFER`: the DWORD contents plus the submission offset used
for patch-offset computation. -/
structure MOS_COMMAND_BUFFER where
  dwords : Nat → Nat
  iOffset : Nat

/-- The slice of the MOS interface consumed by the two AddResourceToCmd
paths: return values and statuses of the device callbacks.
`setPatchEntryStatus n` is the status of the (n+1)-th `pfnSetPatchEntry`
call made during one patching operation. -/
structure PatchOsInterface where
  registerResourceStatus : MOS_STATUS
  gfxAddress : Nat
  allocationIndex : Int
  setPatchEntryStatus : Nat → MOS_STATUS
  cachePolicyDwordValue : Nat

/-- `MOS_PATCH_ENTRY_PARAMS` as filled in by the two AddResourceToCmd paths
(fields the code leaves at their `MOS_ZeroMemory` default stay 0 / false). -/
structure MOS_PATCH_ENTRY_PARAMS where
  uiAllocationIndex : Int
  uiResourceOffset : Nat
  uiPatchOffset : Nat
  bWrite : Bool
  bUpperBoundPatch : Bool
  HwCommandType : Nat
  forceDwordOffset : Nat
  patchType : MOS_PATCH_TYPE
  shiftAmount : Nat
  shiftDirection : Nat
  offsetInSSH : Nat
deriving DecidableEq, Repr

/-- Result of one direct-path (GfxAddress) patching operation: final status,
final command-buffer DWORDs, final MOCS destination cell, the
caller-visible mutations of `pParams` (aligned `dwOffset` and, on the
upper-bound path, aligned `dwSize`), and the successfully recorded patch
entries.  The OCA resource-info dump (fire-and-forget hook, no effect on
this state) is not modelled. -/
structure GfxAddressResult where
  status : MOS_STATUS
  dwords : Nat → Nat
  mocsCell : Option Nat
  alignedOffset : Nat
  alignedSize : Nat
  patchEntries : List MOS_PATCH_ENTRY_PARAMS

/-- Embedding of `Mhw_AddResourceToCmd_GfxAddress` (mhw_utilities_next.cpp
lines 138-257).  Null-pointer preconditions (`pOsInterface`, `pParams`,
`presResource`, `pCmdBuffer`, `pCmdBase`) are assumed satisfied by the
representation.  Note that the status of `Mhw_SetMocsTableIndex` (line 180)
is discarded by the source. -/
def Mhw_AddResourceToCmd_GfxAddress (os : PatchOsInterface) (cmd : MOS_COMMAND_BUFFER)
    (p : MHW_RESOURCE_PARAMS) : GfxAddressResult :=
  if os.registerResourceStatus ≠ MOS_STATUS_SUCCESS then
    { status := os.registerResourceStatus, dwords := cmd.dwords,
      mocsCell := p.mocsParams.mocsTableIndex, alignedOffset := p.dwOffset,
      alignedSize := p.dwSize, patchEntries := [] }
  else
    let dwAlign := 2^p.dwLsbNum
    let dwMask := minusOneShl32 p.dwLsbNum
    let dwOffset := MOS_ALIGN_CEIL32 p.dwOffset dwAlign
    let ui64GfxAddress := (os.gfxAddress + dwOffset) % 2^64
    if ui64GfxAddress = 0 then
      -- MHW_CHK_COND: "Driver can't add resource with ui64GfxAddress == 0"
      { status := MOS_STATUS_INVALID_PARAMETER, dwords := cmd.dwords,
        mocsCell := p.mocsParams.mocsTableIndex, alignedOffset := dwOffset,
        alignedSize := p.dwSize, patchEntries := [] }
    else
      let dwGfxAddrBottom := ui64GfxAddress &&& 0xFFFFFFFF
      let dwGfxAddrTop := (ui64GfxAddress &&& 0xFFFFFFFF00000000) >>> 32
      let d1 : Nat → Nat := fun i =>
        if i = p.cmdIdx then (cmd.dwords p.cmdIdx &&& bitnot32 dwMask) ||| (dwGfxAddrBottom &&& dwMask)
        else cmd.dwords i
      let d2 : Nat → Nat := fun i => if i = p.cmdIdx + 1 then dwGfxAddrTop else d1 i
      -- line 180: return value of Mhw_SetMocsTableIndex is dropped
      let mocsCell := (Mhw_SetMocsTableIndex ⟨os.cachePolicyDwordValue⟩ p.mocsParams).2
      let uiPatchOffset :=
        if p.dwOffsetInSSH > 0 then p.dwOffsetInSSH + p.dwLocationInCmd * 4
        else cmd.iOffset + p.dwLocationInCmd * 4
      let entry1 : MOS_PATCH_ENTRY_PARAMS :=
        { uiAllocationIndex := os.allocationIndex, uiResourceOffset := dwOffset,
          uiPatchOffset := uiPatchOffset, bWrite := p.bIsWritable,
          bUpperBoundPatch := false, HwCommandType := p.HwCommandType,
          forceDwordOffset := p.dwSharedMocsOffset,
          patchType := MOS_PATCH_TYPE_BASE_ADDRESS, shiftAmount := 0,
          shiftDirection := 0, offsetInSSH := 0 }
      if os.setPatchEntryStatus 0 ≠ MOS_STATUS_SUCCESS then
        { status := os.setPatchEntryStatus 0, dwords := d2, mocsCell := mocsCell,
          alignedOffset := dwOffset, alignedSize := p.dwSize, patchEntries := [] }
      else if p.dwUpperBoundLocationOffsetFromCmd > 0 then
        let dwSize := MOS_ALIGN_CEIL32 p.dwSize dwAlign
        let ui64GfxAddressUpperBound := (ui64GfxAddress + dwSize) % 2^64
        let ubBottom := ui64GfxAddressUpperBound &&& 0xFFFFFFFF
        let ubTop := (ui64GfxAddressUpperBound &&& 0xFFFFFFFF00000000) >>> 32
        let j := p.cmdIdx + p.dwUpperBoundLocationOffsetFromCmd
        let d3 : Nat → Nat := fun i =>
          if i = j then (d2 j &&& bitnot32 dwMask) ||| (ubBottom &&& dwMask) else d2 i
        let d4 : Nat → Nat := fun i => if i = j + 1 then ubTop else d3 i
        let entry2 : MOS_PATCH_ENTRY_PARAMS :=
          { uiAllocationIndex := os.allocationIndex,
            uiResourceOffset := dwOffset + dwSize,
            uiPatchOffset := uiPatchOffset + p.dwUpperBoundLocationOffsetFromCmd * 4,
            bWrite := false, bUpperBoundPatch := true, HwCommandType := 0,
            forceDwordOffset := 0, patchType := MOS_PATCH_TYPE_BASE_ADDRESS,
            shiftAmount := 0, shiftDirection := 0, offsetInSSH := 0 }
        if os.setPatchEntryStatus 1 ≠ MOS_STATUS_SUCCESS then
          { status := os.setPatchEntryStatus 1, dwords := d4, mocsCell := mocsCell,
            alignedOffset := dwOffset, alignedSize := dwSize, patchEntries := [entry1] }
        else
          { status := MOS_STATUS_SUCCESS, dwords := d4, mocsCell := mocsCell,
            alignedOffset := dwOffset, alignedSize := dwSize,
            patchEntries := [entry1, entry2] }
      else
        { status := MOS_STATUS_SUCCESS, dwords := d2, mocsCell := mocsCell,
          alignedOffset := dwOffset, alignedSize := p.dwSize, patchEntries := [entry1] }

/-- The direct-path write pair (lines 173-178): the low DWORD keeps its
original bits below `lsb` and takes the masked low 32 bits of the address;
the next DWORD is exactly the high 32 bits; recombining high and low
reproduces the address on every bit at or above `lsb`. -/
theorem gfx_write_pair_spec (old addr lsb : Nat) (hlsb : lsb ≤ 31) (haddr : addr < 2^64) :
    (∀ i, i < lsb →
      ((old &&& bitnot32 (minusOneShl32 lsb)) |||
        ((addr &&& 0xFFFFFFFF) &&& minusOneShl32 lsb)).testBit i = old.testBit i) ∧
    (addr &&& 0xFFFFFFFF00000000) >>> 32 = addr >>> 32 ∧
    (∀ i, lsb ≤ i →
      (((addr &&& 0xFFFFFFFF00000000) >>> 32 <<< 32 |||
        ((old &&& bitnot32 (minusOneShl32 lsb)) |||
          ((addr &&& 0xFFFFFFFF) &&& minusOneShl32 lsb))).testBit i = addr.testBit i)) := by
  have hlow32 : (0xFFFFFFFF : Nat) = 2^32 - 1 := by norm_num
  have hhi64 : (0xFFFFFFFF00000000 : Nat) = (2^32 - 1) <<< 32 := by
    rw [Nat.shiftLeft_eq]; norm_num
  have htop : (addr &&& 0xFFFFFFFF00000000) >>> 32 = addr >>> 32 := by
    apply Nat.eq_of_testBit_eq
    intro j
    rw [Nat.testBit_shiftRight, Nat.testBit_shiftRight, Nat.testBit_land, hhi64,
      Nat.testBit_shiftLeft, Nat.testBit_two_pow_sub_one]
    by_cases hj : j < 32
    · have h1 : 32 ≤ 32 + j := by omega
      have h2 : 32 + j - 32 = j := by omega
      simp [h1, h2, hj]
    · have : addr.testBit (32 + j) = false :=
        Nat.testBit_eq_false_of_lt
          (lt_of_lt_of_le haddr (Nat.pow_le_pow_right (by norm_num) (by omega)))
      simp [this]
  refine ⟨?_, htop, ?_⟩
  · intro i hi
    rw [Nat.testBit_lor, Nat.testBit_land, Nat.testBit_land, bitnot32_testBit,
      minusOneShl32_testBit lsb i hlsb]
    have h1 : i < 32 := by omega
    have h2 : ¬ lsb ≤ i := by omega
    simp [h1, h2]
  · intro i hi
    rw [htop, Nat.testBit_lor, Nat.testBit_shiftLeft, Nat.testBit_lor,
      Nat.testBit_land, Nat.testBit_land, Nat.testBit_land, bitnot32_testBit,
      minusOneShl32_testBit lsb i hlsb, hlow32, Nat.testBit_two_pow_sub_one,
      Nat.testBit_shiftRight]
    have hlsbi : ¬ i < lsb := by omega
    by_cases h32 : i < 32
    · have h1 : ¬ 32 ≤ i := by omega
      simp [h32, h1, hi, hlsbi]
    · have h1 : 32 ≤ i := by omega
      have h2 : 32 + (i - 32) = i := by omega
      simp [h32, h1, h2, hi]

/-- C1: for every successful direct-path address patch with `dwLsbNum ≤ 31`
(and an upper-bound offset that does not overlap the primary pair, i.e.
0 or ≥ 2), the caller's offset is aligned up to `1 << dwLsbNum`, the low
DWORD keeps its original low `dwLsbNum` bits and receives the masked low
32 bits of the 64-bit graphics address `A`, the next DWORD receives the
whole high 32 bits of `A`, and recombining `high <<< 32 ||| low`
reproduces `A` on every bit at or above `dwLsbNum`. -/
theorem C1_gfx_address_split (os : PatchOsInterface) (cmd : MOS_COMMAND_BUFFER)
    (p : MHW_RESOURCE_PARAMS)
    (hreg : os.registerResourceStatus = MOS_STATUS_SUCCESS)
    (hpatch : ∀ n, os.setPatchEntryStatus n = MOS_STATUS_SUCCESS)
    (hlsb : p.dwLsbNum ≤ 31)
    (hub : p.dwUpperBoundLocationOffsetFromCmd = 0 ∨ 2 ≤ p.dwUpperBoundLocationOffsetFromCmd)
    (haddr : (os.gfxAddress + MOS_ALIGN_CEIL32 p.dwOffset (2^p.dwLsbNum)) % 2^64 ≠ 0) :
    (Mhw_AddResourceToCmd_GfxAddress os cmd p).status = MOS_STATUS_SUCCESS ∧
    (Mhw_AddResourceToCmd_GfxAddress os cmd p).alignedOffset
      = MOS_ALIGN_CEIL32 p.dwOffset (2^p.dwLsbNum) ∧
    (∀ i, i < p.dwLsbNum →
      ((Mhw_AddResourceToCmd_GfxAddress os cmd p).dwords p.cmdIdx).testBit i
        = (cmd.dwords p.cmdIdx).testBit i) ∧
    (Mhw_AddResourceToCmd_GfxAddress os cmd p).dwords (p.cmdIdx + 1)
      = ((os.gfxAddress + MOS_ALIGN_CEIL32 p.dwOffset (2^p.dwLsbNum)) % 2^64) >>> 32 ∧
    (∀ i, p.dwLsbNum ≤ i →
      ((Mhw_AddResourceToCmd_GfxAddress os cmd p).dwords (p.cmdIdx + 1) <<< 32 |||
        (Mhw_AddResourceToCmd_GfxAddress os cmd p).dwords p.cmdIdx).testBit i
        = ((os.gfxAddress + MOS_ALIGN_CEIL32 p.dwOffset (2^p.dwLsbNum)) % 2^64).testBit i) := by
  set A := (os.gfxAddress + MOS_ALIGN_CEIL32 p.dwOffset (2^p.dwLsbNum)) % 2^64 with hAdef
  have hA64 : A < 2^64 := Nat.mod_lt _ (by norm_num)
  obtain ⟨hkeep, htop, hrecomb⟩ :=
    gfx_write_pair_spec (cmd.dwords p.cmdIdx) A p.dwLsbNum hlsb hA64
  have e1 : ¬ (os.registerResourceStatus ≠ MOS_STATUS_SUCCESS) := by simp [hreg]
  have e3 : ¬ (os.setPatchEntryStatus 0 ≠ MOS_STATUS_SUCCESS) := by simp [hpatch 0]
  have e4 : ¬ (os.setPatchEntryStatus 1 ≠ MOS_STATUS_SUCCESS) := by simp [hpatch 1]
  have hne1 : p.cmdIdx ≠ p.cmdIdx + 1 := by omega
  rcases hub with hub | hub
  · have hubz : ¬ (p.dwUpperBoundLocationOffsetFromCmd > 0) := by omega
    simp only [Mhw_AddResourceToCmd_GfxAddress, e1, if_false, ← hAdef, if_neg haddr,
      e3, hubz]
    refine ⟨trivial, trivial, ?_, ?_, ?_⟩
    · intro i hi
      simp only [if_neg hne1, if_pos rfl]
      exact hkeep i hi
    · exact htop
    · intro i hi
      simp only [if_neg hne1]
      exact hrecomb i hi
  · have hubpos : p.dwUpperBoundLocationOffsetFromCmd > 0 := by omega
    have hne2 : p.cmdIdx ≠ p.cmdIdx + p.dwUpperBoundLocationOffsetFromCmd := by omega
    have hne3 : p.cmdIdx ≠ p.cmdIdx + p.dwUpperBoundLocationOffsetFromCmd + 1 := by omega
    have hne4 : p.cmdIdx + 1 ≠ p.cmdIdx + p.dwUpperBoundLocationOffsetFromCmd := by omega
    have hne5 : p.cmdIdx + 1 ≠ p.cmdIdx + p.dwUpperBoundLocationOffsetFromCmd + 1 := by
      omega
    simp only [Mhw_AddResourceToCmd_GfxAddress, e1, if_false, ← hAdef, if_neg haddr,
      e3, e4, if_pos hubpos]
    refine ⟨trivial, trivial, ?_, ?_, ?_⟩
    · intro i hi
      simp only [if_neg hne3, if_neg hne2, if_neg hne1, if_pos rfl]
      exact hkeep i hi
    · simp only [if_neg hne5, if_neg hne4, if_pos rfl]
      exact htop
    · intro i hi
      simp only [if_neg hne3, if_neg hne2, if_neg hne1, if_pos rfl, if_neg hne5,
        if_neg hne4]
      exact hrecomb i hi

/-- Concrete inputs witnessing C1: resource at graphics address
`0x1_0000_1000`, `dwLsbNum = 12`, command DWORDs initially 7. -/
def c1os : PatchOsInterface :=
  ⟨MOS_STATUS_SUCCESS, 0x100001000, 0, fun _ => MOS_STATUS_SUCCESS, 0⟩

def c1cmd : MOS_COMMAND_BUFFER := ⟨fun _ => 7, 0⟩

def c1p : MHW_RESOURCE_PARAMS :=
  ⟨0, 12, 0, 0, false, 0, 0, 0, 0, MOS_PATCH_TYPE_BASE_ADDRESS, 0, 0, 0, ⟨none, 0, 0⟩⟩

/-- Witness for C1 at the concrete inputs above. -/
theorem C1_gfx_address_split_witness :
    (c1os.registerResourceStatus = MOS_STATUS_SUCCESS ∧
     (∀ n, c1os.setPatchEntryStatus n = MOS_STATUS_SUCCESS) ∧
     c1p.dwLsbNum ≤ 31 ∧
     (c1p.dwUpperBoundLocationOffsetFromCmd = 0 ∨
       2 ≤ c1p.dwUpperBoundLocationOffsetFromCmd) ∧
     (c1os.gfxAddress + MOS_ALIGN_CEIL32 c1p.dwOffset (2^c1p.dwLsbNum)) % 2^64 ≠ 0) ∧
    (Mhw_AddResourceToCmd_GfxAddress c1os c1cmd c1p).status = MOS_STATUS_SUCCESS ∧
    (∀ i, c1p.dwLsbNum ≤ i →
      ((Mhw_AddResourceToCmd_GfxAddress c1os c1cmd c1p).dwords (c1p.cmdIdx + 1) <<< 32 |||
        (Mhw_AddResourceToCmd_GfxAddress c1os c1cmd c1p).dwords c1p.cmdIdx).testBit i
        = ((c1os.gfxAddress + MOS_ALIGN_CEIL32 c1p.dwOffset (2^c1p.dwLsbNum))
            % 2^64).testBit i) :=
  ⟨⟨rfl, fun _ => rfl, by decide, Or.inl rfl, by decide⟩,
   (C1_gfx_address_split c1os c1cmd c1p rfl (fun _ => rfl) (by decide) (Or.inl rfl)
      (by decide)).1,
   (C1_gfx_address_split c1os c1cmd c1p rfl (fun _ => rfl) (by decide) (Or.inl rfl)
      (by decide)).2.2.2.2⟩

/-- C2 counterexample: a resource whose resolved graphics address is 0,
patched with caller offset 4096 and `dwLsbNum = 0`, does NOT fail — the
zero check at line 171 tests the sum `address + alignedOffset`, so the
operation succeeds and writes 4096 over the destination DWORD (initially
7). -/
theorem C2_gfx_zero_address_counterexample :
    (Mhw_AddResourceToCmd_GfxAddress
        ⟨MOS_STATUS_SUCCESS, 0, 0, fun _ => MOS_STATUS_SUCCESS, 0⟩ ⟨fun _ => 7, 0⟩
        ⟨4096, 0, 0, 0, false, 0, 0, 0, 0, MOS_PATCH_TYPE_BASE_ADDRESS, 0, 0, 0,
          ⟨none, 0, 0⟩⟩).status = MOS_STATUS_SUCCESS ∧
    (Mhw_AddResourceToCmd_GfxAddress
        ⟨MOS_STATUS_SUCCESS, 0, 0, fun _ => MOS_STATUS_SUCCESS, 0⟩ ⟨fun _ => 7, 0⟩
        ⟨4096, 0, 0, 0, false, 0, 0, 0, 0, MOS_PATCH_TYPE_BASE_ADDRESS, 0, 0, 0,
          ⟨none, 0, 0⟩⟩).dwords 0 = 4096 ∧ (7:Nat) ≠ 4096 := by
  refine ⟨by decide, by decide, by decide⟩

/-- C2 (amended): when the resolved graphics address is 0 AND the aligned
caller offset is 0 (so the combined 64-bit address is 0 — the only case
the line-171 check catches), the operation fails with
`MOS_STATUS_INVALID_PARAMETER` and leaves every command-buffer DWORD, the
MOCS cell and the patch list untouched. -/
theorem C2_gfx_zero_address_rejected (os : PatchOsInterface) (cmd : MOS_COMMAND_BUFFER)
    (p : MHW_RESOURCE_PARAMS)
    (hreg : os.registerResourceStatus = MOS_STATUS_SUCCESS)
    (hzero : os.gfxAddress = 0)
    (hoff : MOS_ALIGN_CEIL32 p.dwOffset (2^p.dwLsbNum) = 0) :
    (Mhw_AddResourceToCmd_GfxAddress os cmd p).status = MOS_STATUS_INVALID_PARAMETER ∧
    (∀ i, (Mhw_AddResourceToCmd_GfxAddress os cmd p).dwords i = cmd.dwords i) ∧
    (Mhw_AddResourceToCmd_GfxAddress os cmd p).mocsCell = p.mocsParams.mocsTableIndex ∧
    (Mhw_AddResourceToCmd_GfxAddress os cmd p).patchEntries = [] := by
  have e1 : ¬ (os.registerResourceStatus ≠ MOS_STATUS_SUCCESS) := by simp [hreg]
  simp only [Mhw_AddResourceToCmd_GfxAddress, e1, if_false, hzero, hoff]
  norm_num

/-- Witness for the amended C2: resolved address 0, offset 0. -/
theorem C2_gfx_zero_address_rejected_witness :
    ((⟨MOS_STATUS_SUCCESS, 0, 0, fun _ => MOS_STATUS_SUCCESS, 0⟩ :
        PatchOsInterface).registerResourceStatus = MOS_STATUS_SUCCESS ∧
     (⟨MOS_STATUS_SUCCESS, 0, 0, fun _ => MOS_STATUS_SUCCESS, 0⟩ :
        PatchOsInterface).gfxAddress = 0 ∧
     MOS_ALIGN_CEIL32 0 (2^(12:Nat)) = 0) ∧
    (Mhw_AddResourceToCmd_GfxAddress
        ⟨MOS_STATUS_SUCCESS, 0, 0, fun _ => MOS_STATUS_SUCCESS, 0⟩ ⟨fun _ => 7, 0⟩
        ⟨0, 12, 0, 0, false, 0, 0, 0, 0, MOS_PATCH_TYPE_BASE_ADDRESS, 0, 0, 0,
          ⟨none, 0, 0⟩⟩).status = MOS_STATUS_INVALID_PARAMETER :=
  ⟨⟨rfl, rfl, by decide⟩,
   (C2_gfx_zero_address_rejected
      ⟨MOS_STATUS_SUCCESS, 0, 0, fun _ => MOS_STATUS_SUCCESS, 0⟩ ⟨fun _ => 7, 0⟩
      ⟨0, 12, 0, 0, false, 0, 0, 0, 0, MOS_PATCH_TYPE_BASE_ADDRESS, 0, 0, 0,
        ⟨none, 0, 0⟩⟩ rfl rfl (by decide)).1⟩

/-- Result of one deferred-path (PatchList) operation: status, final MOCS
cell, recorded patch entries.  This path writes no command DWORD (it only
reads `*pdwCmd` to preserve low bits in the recorded offset). -/
structure PatchListResult where
  status : MOS_STATUS
  mocsCell : Option Nat
  patchEntries : List MOS_PATCH_ENTRY_PARAMS

/-- Embedding of `Mhw_AddResourceToCmd_PatchList` (mhw_utilities_next.cpp
lines 272-390).  The `pfnGetGpuContext` call (line 298) has no modelled
effect.  As on the direct path, the status of `Mhw_SetMocsTableIndex`
(line 305) is discarded by the source. -/
def Mhw_AddResourceToCmd_PatchList (os : PatchOsInterface) (cmd : MOS_COMMAND_BUFFER)
    (p : MHW_RESOURCE_PARAMS) : PatchListResult :=
  if os.registerResourceStatus ≠ MOS_STATUS_SUCCESS then
    { status := os.registerResourceStatus, mocsCell := p.mocsParams.mocsTableIndex,
      patchEntries := [] }
  else
    let dwLsbNum := p.dwLsbNum
    -- dwOffset = pParams->dwOffset | ((*pParams->pdwCmd) & ((1 << dwLsbNum) - 1))
    let dwOffset := p.dwOffset ||| (cmd.dwords p.cmdIdx &&& (2^dwLsbNum - 1))
    -- line 305: return value of Mhw_SetMocsTableIndex is dropped
    let mocsCell := (Mhw_SetMocsTableIndex ⟨os.cachePolicyDwordValue⟩ p.mocsParams).2
    let uiPatchOffset :=
      if p.dwOffsetInSSH > 0 then p.dwOffsetInSSH + p.dwLocationInCmd * 4
      else cmd.iOffset + p.dwLocationInCmd * 4
    let entry1 : MOS_PATCH_ENTRY_PARAMS :=
      { uiAllocationIndex := os.allocationIndex,
        uiResourceOffset :=
          if p.patchType = MOS_PATCH_TYPE_UV_Y_OFFSET ∨
             p.patchType = MOS_PATCH_TYPE_PITCH ∨
             p.patchType = MOS_PATCH_TYPE_V_Y_OFFSET then cmd.dwords p.cmdIdx
          else dwOffset,
        uiPatchOffset := uiPatchOffset, bWrite := p.bIsWritable,
        bUpperBoundPatch := false, HwCommandType := p.HwCommandType,
        forceDwordOffset := p.dwSharedMocsOffset, patchType := p.patchType,
        shiftAmount := p.shiftAmount, shiftDirection := p.shiftDirection,
        offsetInSSH := p.dwOffsetInSSH }
    if os.setPatchEntryStatus 0 ≠ MOS_STATUS_SUCCESS then
      { status := os.setPatchEntryStatus 0, mocsCell := mocsCell, patchEntries := [] }
    else if p.dwUpperBoundLocationOffsetFromCmd > 0 then
      let j := p.cmdIdx + p.dwUpperBoundLocationOffsetFromCmd
      let dwOffset2 := MOS_ALIGN_CEIL32 (p.dwOffset + p.dwSize) (2^dwLsbNum) |||
        (cmd.dwords j &&& (2^dwLsbNum - 1))
      let entry2base : MOS_PATCH_ENTRY_PARAMS :=
        { uiAllocationIndex := os.allocationIndex, uiResourceOffset := dwOffset2,
          uiPatchOffset := uiPatchOffset + p.dwUpperBoundLocationOffsetFromCmd * 4,
          bWrite := false, bUpperBoundPatch := true, HwCommandType := 0,
          forceDwordOffset := 0, patchType := p.patchType,
          shiftAmount := p.shiftAmount, shiftDirection := p.shiftDirection,
          offsetInSSH := p.dwOffsetInSSH }
      -- if (dwLsbNum) { shiftAmount = dwLsbNum; shiftDirection = 0; }
      let entry2 :=
        if dwLsbNum ≠ 0 then
          { entry2base with shiftAmount := dwLsbNum, shiftDirection := 0 }
        else entry2base
      if os.setPatchEntryStatus 1 ≠ MOS_STATUS_SUCCESS then
        { status := os.setPatchEntryStatus 1, mocsCell := mocsCell,
          patchEntries := [entry1] }
      else
        { status := MOS_STATUS_SUCCESS, mocsCell := mocsCell,
          patchEntries := [entry1, entry2] }
    else
      { status := MOS_STATUS_SUCCESS, mocsCell := mocsCell, patchEntries := [entry1] }

/- ------------------------------------------------------------------ -/
/- Generic command-buffer prologue composer                           -/
/- ------------------------------------------------------------------ -/

/-- The commands `Mhw_SendGenericPrologCmdNext` can append to the command
buffer, in trace form. -/
inductive PrologCmd where
  | MI_BATCH_BUFFER_START_SYNC : PrologCmd
  | WATCHDOG_TIMER_START : PrologCmd
  | PIPE_CONTROL_WRITE_CACHE_FLUSH : PrologCmd
  | PIPE_CONTROL_READ_CACHE_FLUSH_MARKER : PrologCmd
  | MI_LOAD_REGISTER_IMM_PWR_CLK : PrologCmd
  | MI_FLUSH_DW_MARKER : PrologCmd
  | PROTECTED_PROLOG : PrologCmd
  | OCA_1ST_LEVEL_BB_START : PrologCmd
deriving DecidableEq, Repr

open PrologCmd

/-- The branch conditions of `Mhw_SendGenericPrologCmdNext` as evaluated on
its inputs:
* `hasSyncBatchBuffer`: `pfnIsGpuSyncByCmd(..) && pCmdBuffer->syncMhwBatchBuffer != nullptr`;
* `componentIsCM`: `pOsInterface->Component == COMPONENT_CM`;
* `gpuContextInWatchdogList`: the GPU context is one of the fifteen
  render/video/vebox contexts enumerated at lines 492-506;
* `rcsEngineUsed`: `MOS_RCS_ENGINE_USED(GpuContext)`;
* `umdSSEUEnable`: `pCmdBuffer->Attributes.bUmdSSEUEnable`;
* `mmioRegProvided`: `pMmioReg != nullptr`. -/
structure PrologInputs where
  hasSyncBatchBuffer : Bool
  componentIsCM : Bool
  gpuContextInWatchdogList : Bool
  rcsEngineUsed : Bool
  umdSSEUEnable : Bool
  mmioRegProvided : Bool
deriving DecidableEq, Repr

/-- Statuses returned by the MI-interface command emitters consumed by the
prologue composer.  `pipeControlStatus n` is the status of the (n+1)-th
`PIPE_CONTROL` add of one prologue. -/
structure MiInterfaceStatuses where
  batchBufferStartStatus : MOS_STATUS
  watchdogStartStatus : MOS_STATUS
  pipeControlStatus : Nat → MOS_STATUS
  loadRegisterImmStatus : MOS_STATUS
  flushDwStatus : MOS_STATUS
  protectedPrologStatus : MOS_STATUS

/-- Embedding of `Mhw_SendGenericPrologCmdNext` (mhw_utilities_next.cpp
lines 451-575) as a trace semantics: the returned list is the sequence of
commands appended to the command buffer, in program order.  A failing
emitter is modelled as appending nothing (`MHW_CHK_STATUS_RETURN` aborts
right after the call).  The protected-prologue / OCA tail appears
textually once per engine-class branch; both branches execute the same
source lines 562-572. -/
def Mhw_SendGenericPrologCmdNext (mi : MiInterfaceStatuses) (inp : PrologInputs) :
    MOS_STATUS × List PrologCmd :=
  if inp.hasSyncBatchBuffer ∧ mi.batchBufferStartStatus ≠ MOS_STATUS_SUCCESS then
    (mi.batchBufferStartStatus, [])
  else
    let t1 := if inp.hasSyncBatchBuffer then [MI_BATCH_BUFFER_START_SYNC] else []
    if (¬ inp.componentIsCM ∧ inp.gpuContextInWatchdogList) ∧
        mi.watchdogStartStatus ≠ MOS_STATUS_SUCCESS then
      (mi.watchdogStartStatus, t1)
    else
      let t2 := t1 ++
        (if ¬ inp.componentIsCM ∧ inp.gpuContextInWatchdogList then
          [WATCHDOG_TIMER_START] else [])
      if inp.rcsEngineUsed then
        -- render-class branch: write-cache flush, then read-cache flush
        -- with post-sync immediate-data marker, then optional SSEU LRI
        if mi.pipeControlStatus 0 ≠ MOS_STATUS_SUCCESS then
          (mi.pipeControlStatus 0, t2)
        else
          let t3 := t2 ++ [PIPE_CONTROL_WRITE_CACHE_FLUSH]
          if mi.pipeControlStatus 1 ≠ MOS_STATUS_SUCCESS then
            (mi.pipeControlStatus 1, t3)
          else
            let t4 := t3 ++ [PIPE_CONTROL_READ_CACHE_FLUSH_MARKER]
            if inp.umdSSEUEnable ∧ mi.loadRegisterImmStatus ≠ MOS_STATUS_SUCCESS then
              (mi.loadRegisterImmStatus, t4)
            else
              let t5 := t4 ++
                (if inp.umdSSEUEnable then [MI_LOAD_REGISTER_IMM_PWR_CLK] else [])
              if mi.protectedPrologStatus ≠ MOS_STATUS_SUCCESS then
                (mi.protectedPrologStatus, t5)
              else
                (MOS_STATUS_SUCCESS, t5 ++ [PROTECTED_PROLOG] ++
                  (if inp.mmioRegProvided then [OCA_1ST_LEVEL_BB_START] else []))
      else
        -- non-render branch: single MI_FLUSH_DW carrying the marker
        if mi.flushDwStatus ≠ MOS_STATUS_SUCCESS then
          (mi.flushDwStatus, t2)
        else
          let t3 := t2 ++ [MI_FLUSH_DW_MARKER]
          if mi.protectedPrologStatus ≠ MOS_STATUS_SUCCESS then
            (mi.protectedPrologStatus, t3)
          else
            (MOS_STATUS_SUCCESS, t3 ++ [PROTECTED_PROLOG] ++
              (if inp.mmioRegProvided then [OCA_1ST_LEVEL_BB_START] else []))

/-- Flush-class commands: the two PIPE_CONTROLs and MI_FLUSH_DW. -/
def isFlushClassCmd : PrologCmd → Bool
  | PIPE_CONTROL_WRITE_CACHE_FLUSH => true
  | PIPE_CONTROL_READ_CACHE_FLUSH_MARKER => true
  | MI_FLUSH_DW_MARKER => true
  | _ => false

/-- Marker-depositing commands: the post-sync PIPE_CONTROL (render) and
MI_FLUSH_DW (non-render). -/
def isMarkerCmd : PrologCmd → Bool
  | PIPE_CONTROL_READ_CACHE_FLUSH_MARKER => true
  | MI_FLUSH_DW_MARKER => true
  | _ => false

/-- The command sequence the prologue emits when every emitter succeeds,
laid out as the spec's strict order. -/
def expectedPrologTrace (inp : PrologInputs) : List PrologCmd :=
  (if inp.hasSyncBatchBuffer then [MI_BATCH_BUFFER_START_SYNC] else []) ++
  (if ¬ inp.componentIsCM ∧ inp.gpuContextInWatchdogList then
    [WATCHDOG_TIMER_START] else []) ++
  (if inp.rcsEngineUsed then
    [PIPE_CONTROL_WRITE_CACHE_FLUSH, PIPE_CONTROL_READ_CACHE_FLUSH_MARKER] ++
      (if inp.umdSSEUEnable then [MI_LOAD_REGISTER_IMM_PWR_CLK] else [])
  else [MI_FLUSH_DW_MARKER]) ++
  [PROTECTED_PROLOG] ++
  (if inp.mmioRegProvided then [OCA_1ST_LEVEL_BB_START] else [])

theorem prolog_success_eq (mi : MiInterfaceStatuses) (inp : PrologInputs)
    (hbb : mi.batchBufferStartStatus = MOS_STATUS_SUCCESS)
    (hwd : mi.watchdogStartStatus = MOS_STATUS_SUCCESS)
    (hpc : ∀ n, mi.pipeControlStatus n = MOS_STATUS_SUCCESS)
    (hlri : mi.loadRegisterImmStatus = MOS_STATUS_SUCCESS)
    (hfl : mi.flushDwStatus = MOS_STATUS_SUCCESS)
    (hpp : mi.protectedPrologStatus = MOS_STATUS_SUCCESS) :
    Mhw_SendGenericPrologCmdNext mi inp = (MOS_STATUS_SUCCESS, expectedPrologTrace inp) := by
  have e0 : ¬ (inp.hasSyncBatchBuffer ∧ mi.batchBufferStartStatus ≠ MOS_STATUS_SUCCESS) := by
    simp [hbb]
  have e1 : ¬ ((¬ inp.componentIsCM ∧ inp.gpuContextInWatchdogList) ∧
      mi.watchdogStartStatus ≠ MOS_STATUS_SUCCESS) := by simp [hwd]
  have e2 : ¬ (mi.pipeControlStatus 0 ≠ MOS_STATUS_SUCCESS) := by simp [hpc 0]
  have e3 : ¬ (mi.pipeControlStatus 1 ≠ MOS_STATUS_SUCCESS) := by simp [hpc 1]
  have e4 : ¬ (inp.umdSSEUEnable ∧ mi.loadRegisterImmStatus ≠ MOS_STATUS_SUCCESS) := by
    simp [hlri]
  have e5 : ¬ (mi.flushDwStatus ≠ MOS_STATUS_SUCCESS) := by simp [hfl]
  have e6 : ¬ (mi.protectedPrologStatus ≠ MOS_STATUS_SUCCESS) := by simp [hpp]
  by_cases hrcs : inp.rcsEngineUsed = true
  · simp [Mhw_SendGenericPrologCmdNext, expectedPrologTrace, e0, e1, e2, e3, e4, e5, e6, hrcs,
      hbb, hwd, hpc, hlri, hfl, hpp]
  · simp [Mhw_SendGenericPrologCmdNext, expectedPrologTrace, e0, e1, e2, e3, e4, e5, e6, hrcs,
      hbb, hwd, hpc, hlri, hfl, hpp]

/-- C9: when every emitter succeeds, the prologue is emitted in strict
order — optional sync batch-buffer start; then (non-CM, watchdog-eligible
contexts) the watchdog start; then either the render-class pair of
PIPE_CONTROLs (write-cache flush, then read-cache flush depositing the
marker, then the optional power-state LRI) or the single marker-carrying
MI_FLUSH_DW; then the protected prologue; finally the OCA first-level
batch-buffer hook exactly when MMIO register metadata is supplied.
Consequences: the engine-class branches are mutually exclusive, every
marker-deposit command precedes the protected prologue with no flush-class
command in between, and the OCA hook only runs after the protected
prologue. -/
theorem C9_prolog_order (mi : MiInterfaceStatuses) (inp : PrologInputs)
    (hbb : mi.batchBufferStartStatus = MOS_STATUS_SUCCESS)
    (hwd : mi.watchdogStartStatus = MOS_STATUS_SUCCESS)
    (hpc : ∀ n, mi.pipeControlStatus n = MOS_STATUS_SUCCESS)
    (hlri : mi.loadRegisterImmStatus = MOS_STATUS_SUCCESS)
    (hfl : mi.flushDwStatus = MOS_STATUS_SUCCESS)
    (hpp : mi.protectedPrologStatus = MOS_STATUS_SUCCESS) :
    (Mhw_SendGenericPrologCmdNext mi inp).1 = MOS_STATUS_SUCCESS ∧
    (Mhw_SendGenericPrologCmdNext mi inp).2 =
      (if inp.hasSyncBatchBuffer then [MI_BATCH_BUFFER_START_SYNC] else []) ++
      (if ¬ inp.componentIsCM ∧ inp.gpuContextInWatchdogList then
        [WATCHDOG_TIMER_START] else []) ++
      (if inp.rcsEngineUsed then
        [PIPE_CONTROL_WRITE_CACHE_FLUSH, PIPE_CONTROL_READ_CACHE_FLUSH_MARKER] ++
          (if inp.umdSSEUEnable then [MI_LOAD_REGISTER_IMM_PWR_CLK] else [])
      else [MI_FLUSH_DW_MARKER]) ++
      [PROTECTED_PROLOG] ++
      (if inp.mmioRegProvided then [OCA_1ST_LEVEL_BB_START] else []) ∧
    ¬ (PIPE_CONTROL_WRITE_CACHE_FLUSH ∈ (Mhw_SendGenericPrologCmdNext mi inp).2 ∧
       MI_FLUSH_DW_MARKER ∈ (Mhw_SendGenericPrologCmdNext mi inp).2) ∧
    (∀ k1 k2 : Fin (Mhw_SendGenericPrologCmdNext mi inp).2.length,
      isMarkerCmd ((Mhw_SendGenericPrologCmdNext mi inp).2.get k1) = true →
      (Mhw_SendGenericPrologCmdNext mi inp).2.get k2 = PROTECTED_PROLOG →
      k1 < k2 ∧
        ∀ k : Fin (Mhw_SendGenericPrologCmdNext mi inp).2.length, k1 < k → k < k2 →
          isFlushClassCmd ((Mhw_SendGenericPrologCmdNext mi inp).2.get k) = false) ∧
    (∀ k : Fin (Mhw_SendGenericPrologCmdNext mi inp).2.length,
      (Mhw_SendGenericPrologCmdNext mi inp).2.get k = OCA_1ST_LEVEL_BB_START →
      inp.mmioRegProvided = true ∧
        ∀ k2 : Fin (Mhw_SendGenericPrologCmdNext mi inp).2.length,
          (Mhw_SendGenericPrologCmdNext mi inp).2.get k2 = PROTECTED_PROLOG → k2 < k) := by
  rw [prolog_success_eq mi inp hbb hwd hpc hlri hfl hpp]
  obtain ⟨sync, cm, wd, rcs, sseu, mmio⟩ := inp
  cases sync <;> cases cm <;> cases wd <;> cases rcs <;> cases sseu <;> cases mmio <;>
    decide

def c9mi : MiInterfaceStatuses :=
  ⟨MOS_STATUS_SUCCESS, MOS_STATUS_SUCCESS, fun _ => MOS_STATUS_SUCCESS,
    MOS_STATUS_SUCCESS, MOS_STATUS_SUCCESS, MOS_STATUS_SUCCESS⟩

def c9inp : PrologInputs := ⟨true, false, true, true, true, true⟩

/-- Witness for C9: all emitters succeed, render context with sync batch
buffer, watchdog, SSEU and MMIO metadata all enabled. -/
theorem C9_prolog_order_witness :
    (c9mi.batchBufferStartStatus = MOS_STATUS_SUCCESS ∧
     c9mi.watchdogStartStatus = MOS_STATUS_SUCCESS ∧
     (∀ n, c9mi.pipeControlStatus n = MOS_STATUS_SUCCESS) ∧
     c9mi.loadRegisterImmStatus = MOS_STATUS_SUCCESS ∧
     c9mi.flushDwStatus = MOS_STATUS_SUCCESS ∧
     c9mi.protectedPrologStatus = MOS_STATUS_SUCCESS) ∧
    (Mhw_SendGenericPrologCmdNext c9mi c9inp).1 = MOS_STATUS_SUCCESS ∧
    (Mhw_SendGenericPrologCmdNext c9mi c9inp).2 =
      (if c9inp.hasSyncBatchBuffer then [MI_BATCH_BUFFER_START_SYNC] else []) ++
      (if ¬ c9inp.componentIsCM ∧ c9inp.gpuContextInWatchdogList then
        [WATCHDOG_TIMER_START] else []) ++
      (if c9inp.rcsEngineUsed then
        [PIPE_CONTROL_WRITE_CACHE_FLUSH, PIPE_CONTROL_READ_CACHE_FLUSH_MARKER] ++
          (if c9inp.umdSSEUEnable then [MI_LOAD_REGISTER_IMM_PWR_CLK] else [])
      else [MI_FLUSH_DW_MARKER]) ++
      [PROTECTED_PROLOG] ++
      (if c9inp.mmioRegProvided then [OCA_1ST_LEVEL_BB_START] else []) :=
  ⟨⟨rfl, rfl, fun _ => rfl, rfl, rfl, rfl⟩,
   (C9_prolog_order c9mi c9inp rfl rfl (fun _ => rfl) rfl rfl rfl).1,
   (C9_prolog_order c9mi c9inp rfl rfl (fun _ => rfl) rfl rfl rfl).2.1⟩

/-- C7 counterexample: patching with an invalid MOCS bit range — the MOCS
resolver returns `MOS_STATUS_INVALID_PARAMETER` — yet both AddResourceToCmd
paths return `MOS_STATUS_SUCCESS`: the resolver's failure status is
discarded (lines 180 and 305), contradicting "no sub-call's failure status
(including the MOCS resolver's) is discarded". -/
theorem C7_mocs_status_discarded_counterexample :
    (Mhw_SetMocsTableIndex ⟨0⟩ ⟨some 0, 5, 2⟩).1 = MOS_STATUS_INVALID_PARAMETER ∧
    (Mhw_AddResourceToCmd_GfxAddress
        ⟨MOS_STATUS_SUCCESS, 0x1000, 0, fun _ => MOS_STATUS_SUCCESS, 0⟩ ⟨fun _ => 0, 0⟩
        ⟨0, 0, 0, 0, false, 0, 0, 0, 0, MOS_PATCH_TYPE_BASE_ADDRESS, 0, 0, 0,
          ⟨some 0, 5, 2⟩⟩).status = MOS_STATUS_SUCCESS ∧
    (Mhw_AddResourceToCmd_PatchList
        ⟨MOS_STATUS_SUCCESS, 0x1000, 0, fun _ => MOS_STATUS_SUCCESS, 0⟩ ⟨fun _ => 0, 0⟩
        ⟨0, 0, 0, 0, false, 0, 0, 0, 0, MOS_PATCH_TYPE_BASE_ADDRESS, 0, 0, 0,
          ⟨some 0, 5, 2⟩⟩).status = MOS_STATUS_SUCCESS := by
  refine ⟨by decide, by decide, by decide⟩

/-- C7 (amended): the composer-level operations abort on the first failing
status-checked sub-call and propagate its status unchanged — the register
step and both set-patch-entry calls of the two AddResourceToCmd paths, and
every MI emitter of the prologue (sync batch-buffer start, watchdog start,
both PIPE_CONTROLs, the power-state LRI, MI_FLUSH_DW, and the protected
prologue) — but the MOCS resolver's status is discarded by both
AddResourceToCmd paths (see the counterexample). -/
theorem C7_failfast_checked_subcalls (os : PatchOsInterface) (cmd : MOS_COMMAND_BUFFER)
    (p : MHW_RESOURCE_PARAMS) (mi : MiInterfaceStatuses) (inp : PrologInputs) :
    (os.registerResourceStatus ≠ MOS_STATUS_SUCCESS →
      (Mhw_AddResourceToCmd_GfxAddress os cmd p).status = os.registerResourceStatus ∧
      (Mhw_AddResourceToCmd_PatchList os cmd p).status = os.registerResourceStatus) ∧
    (os.registerResourceStatus = MOS_STATUS_SUCCESS →
      (os.gfxAddress + MOS_ALIGN_CEIL32 p.dwOffset (2^p.dwLsbNum)) % 2^64 ≠ 0 →
      os.setPatchEntryStatus 0 ≠ MOS_STATUS_SUCCESS →
      (Mhw_AddResourceToCmd_GfxAddress os cmd p).status = os.setPatchEntryStatus 0) ∧
    (os.registerResourceStatus = MOS_STATUS_SUCCESS →
      (os.gfxAddress + MOS_ALIGN_CEIL32 p.dwOffset (2^p.dwLsbNum)) % 2^64 ≠ 0 →
      os.setPatchEntryStatus 0 = MOS_STATUS_SUCCESS →
      p.dwUpperBoundLocationOffsetFromCmd > 0 →
      os.setPatchEntryStatus 1 ≠ MOS_STATUS_SUCCESS →
      (Mhw_AddResourceToCmd_GfxAddress os cmd p).status = os.setPatchEntryStatus 1) ∧
    (os.registerResourceStatus = MOS_STATUS_SUCCESS →
      os.setPatchEntryStatus 0 ≠ MOS_STATUS_SUCCESS →
      (Mhw_AddResourceToCmd_PatchList os cmd p).status = os.setPatchEntryStatus 0) ∧
    (os.registerResourceStatus = MOS_STATUS_SUCCESS →
      os.setPatchEntryStatus 0 = MOS_STATUS_SUCCESS →
      p.dwUpperBoundLocationOffsetFromCmd > 0 →
      os.setPatchEntryStatus 1 ≠ MOS_STATUS_SUCCESS →
      (Mhw_AddResourceToCmd_PatchList os cmd p).status = os.setPatchEntryStatus 1) ∧
    (inp.hasSyncBatchBuffer = true →
      mi.batchBufferStartStatus ≠ MOS_STATUS_SUCCESS →
      (Mhw_SendGenericPrologCmdNext mi inp).1 = mi.batchBufferStartStatus) ∧
    ((inp.hasSyncBatchBuffer → mi.batchBufferStartStatus = MOS_STATUS_SUCCESS) →
      inp.componentIsCM = false → inp.gpuContextInWatchdogList = true →
      mi.watchdogStartStatus ≠ MOS_STATUS_SUCCESS →
      (Mhw_SendGenericPrologCmdNext mi inp).1 = mi.watchdogStartStatus) ∧
    ((inp.hasSyncBatchBuffer → mi.batchBufferStartStatus = MOS_STATUS_SUCCESS) →
      ((¬ inp.componentIsCM ∧ inp.gpuContextInWatchdogList) →
        mi.watchdogStartStatus = MOS_STATUS_SUCCESS) →
      inp.rcsEngineUsed = true →
      mi.pipeControlStatus 0 ≠ MOS_STATUS_SUCCESS →
      (Mhw_SendGenericPrologCmdNext mi inp).1 = mi.pipeControlStatus 0) ∧
    ((inp.hasSyncBatchBuffer → mi.batchBufferStartStatus = MOS_STATUS_SUCCESS) →
      ((¬ inp.componentIsCM ∧ inp.gpuContextInWatchdogList) →
        mi.watchdogStartStatus = MOS_STATUS_SUCCESS) →
      inp.rcsEngineUsed = true →
      mi.pipeControlStatus 0 = MOS_STATUS_SUCCESS →
      mi.pipeControlStatus 1 ≠ MOS_STATUS_SUCCESS →
      (Mhw_SendGenericPrologCmdNext mi inp).1 = mi.pipeControlStatus 1) ∧
    ((inp.hasSyncBatchBuffer → mi.batchBufferStartStatus = MOS_STATUS_SUCCESS) →
      ((¬ inp.componentIsCM ∧ inp.gpuContextInWatchdogList) →
        mi.watchdogStartStatus = MOS_STATUS_SUCCESS) →
      inp.rcsEngineUsed = true →
      mi.pipeControlStatus 0 = MOS_STATUS_SUCCESS →
      mi.pipeControlStatus 1 = MOS_STATUS_SUCCESS →
      inp.umdSSEUEnable = true →
      mi.loadRegisterImmStatus ≠ MOS_STATUS_SUCCESS →
      (Mhw_SendGenericPrologCmdNext mi inp).1 = mi.loadRegisterImmStatus) ∧
    ((inp.hasSyncBatchBuffer → mi.batchBufferStartStatus = MOS_STATUS_SUCCESS) →
      ((¬ inp.componentIsCM ∧ inp.gpuContextInWatchdogList) →
        mi.watchdogStartStatus = MOS_STATUS_SUCCESS) →
      inp.rcsEngineUsed = false →
      mi.flushDwStatus ≠ MOS_STATUS_SUCCESS →
      (Mhw_SendGenericPrologCmdNext mi inp).1 = mi.flushDwStatus) ∧
    (mi.protectedPrologStatus ≠ MOS_STATUS_SUCCESS →
      (inp.hasSyncBatchBuffer → mi.batchBufferStartStatus = MOS_STATUS_SUCCESS) →
      ((¬ inp.componentIsCM ∧ inp.gpuContextInWatchdogList) →
        mi.watchdogStartStatus = MOS_STATUS_SUCCESS) →
      (∀ n, mi.pipeControlStatus n = MOS_STATUS_SUCCESS) →
      mi.loadRegisterImmStatus = MOS_STATUS_SUCCESS →
      mi.flushDwStatus = MOS_STATUS_SUCCESS →
      (Mhw_SendGenericPrologCmdNext mi inp).1 = mi.protectedPrologStatus) := by
  refine ⟨?_, ?_, ?_, ?_, ?_, ?_, ?_, ?_, ?_, ?_, ?_, ?_⟩
  · intro h
    constructor <;> simp [Mhw_AddResourceToCmd_GfxAddress, Mhw_AddResourceToCmd_PatchList, h]
  · intro hreg haddr hsp
    have e1 : ¬ (os.registerResourceStatus ≠ MOS_STATUS_SUCCESS) := by simp [hreg]
    simp only [Mhw_AddResourceToCmd_GfxAddress, e1, if_false, if_neg haddr, if_pos hsp]
  · intro hreg haddr hsp0 hub hsp1
    have e1 : ¬ (os.registerResourceStatus ≠ MOS_STATUS_SUCCESS) := by simp [hreg]
    have e3 : ¬ (os.setPatchEntryStatus 0 ≠ MOS_STATUS_SUCCESS) := by simp [hsp0]
    simp only [Mhw_AddResourceToCmd_GfxAddress, e1, if_false, if_neg haddr]
    simp [e3, hub, hsp1]
  · intro hreg hsp
    have e1 : ¬ (os.registerResourceStatus ≠ MOS_STATUS_SUCCESS) := by simp [hreg]
    simp only [Mhw_AddResourceToCmd_PatchList, e1, if_false, if_pos hsp]
  · intro hreg hsp0 hub hsp1
    have e1 : ¬ (os.registerResourceStatus ≠ MOS_STATUS_SUCCESS) := by simp [hreg]
    have e3 : ¬ (os.setPatchEntryStatus 0 ≠ MOS_STATUS_SUCCESS) := by simp [hsp0]
    simp [Mhw_AddResourceToCmd_PatchList, e1, e3, hub, hsp1]
  · intro hsync hbbf
    simp [Mhw_SendGenericPrologCmdNext, hsync, hbbf]
  · intro hbbS hcm hwdl hwdf
    have e0 : ¬ (inp.hasSyncBatchBuffer ∧
        mi.batchBufferStartStatus ≠ MOS_STATUS_SUCCESS) := by
      rintro ⟨hs, hb⟩; exact hb (hbbS hs)
    simp [Mhw_SendGenericPrologCmdNext, e0, hcm, hwdl, hwdf]
  · intro hbbS hwdS hrcs hpc0f
    have e0 : ¬ (inp.hasSyncBatchBuffer ∧
        mi.batchBufferStartStatus ≠ MOS_STATUS_SUCCESS) := by
      rintro ⟨hs, hb⟩; exact hb (hbbS hs)
    have e1 : ¬ ((¬ inp.componentIsCM ∧ inp.gpuContextInWatchdogList) ∧
        mi.watchdogStartStatus ≠ MOS_STATUS_SUCCESS) := by
      rintro ⟨hs, hb⟩; exact hb (hwdS hs)
    have e1x : ¬ ((inp.componentIsCM = false ∧ inp.gpuContextInWatchdogList = true) ∧
        mi.watchdogStartStatus ≠ MOS_STATUS_SUCCESS) := by
      rintro ⟨⟨hcm, hwdl⟩, hb⟩
      exact hb (hwdS ⟨by simp [hcm], hwdl⟩)
    simp [Mhw_SendGenericPrologCmdNext, e0, e1, e1x, hrcs, hpc0f]
  · intro hbbS hwdS hrcs hpc0S hpc1f
    have e0 : ¬ (inp.hasSyncBatchBuffer ∧
        mi.batchBufferStartStatus ≠ MOS_STATUS_SUCCESS) := by
      rintro ⟨hs, hb⟩; exact hb (hbbS hs)
    have e1 : ¬ ((¬ inp.componentIsCM ∧ inp.gpuContextInWatchdogList) ∧
        mi.watchdogStartStatus ≠ MOS_STATUS_SUCCESS) := by
      rintro ⟨hs, hb⟩; exact hb (hwdS hs)
    have e1x : ¬ ((inp.componentIsCM = false ∧ inp.gpuContextInWatchdogList = true) ∧
        mi.watchdogStartStatus ≠ MOS_STATUS_SUCCESS) := by
      rintro ⟨⟨hcm, hwdl⟩, hb⟩
      exact hb (hwdS ⟨by simp [hcm], hwdl⟩)
    have e2 : ¬ (mi.pipeControlStatus 0 ≠ MOS_STATUS_SUCCESS) := by simp [hpc0S]
    simp [Mhw_SendGenericPrologCmdNext, e0, e1, e1x, e2, hrcs, hpc1f]
  · intro hbbS hwdS hrcs hpc0S hpc1S hsseu hlrif
    have e0 : ¬ (inp.hasSyncBatchBuffer ∧
        mi.batchBufferStartStatus ≠ MOS_STATUS_SUCCESS) := by
      rintro ⟨hs, hb⟩; exact hb (hbbS hs)
    have e1 : ¬ ((¬ inp.componentIsCM ∧ inp.gpuContextInWatchdogList) ∧
        mi.watchdogStartStatus ≠ MOS_STATUS_SUCCESS) := by
      rintro ⟨hs, hb⟩; exact hb (hwdS hs)
    have e1x : ¬ ((inp.componentIsCM = false ∧ inp.gpuContextInWatchdogList = true) ∧
        mi.watchdogStartStatus ≠ MOS_STATUS_SUCCESS) := by
      rintro ⟨⟨hcm, hwdl⟩, hb⟩
      exact hb (hwdS ⟨by simp [hcm], hwdl⟩)
    have e2 : ¬ (mi.pipeControlStatus 0 ≠ MOS_STATUS_SUCCESS) := by simp [hpc0S]
    have e3 : ¬ (mi.pipeControlStatus 1 ≠ MOS_STATUS_SUCCESS) := by simp [hpc1S]
    simp [Mhw_SendGenericPrologCmdNext, e0, e1, e1x, e2, e3, hrcs, hsseu, hlrif]
  · intro hbbS hwdS hrcs hflf
    have e0 : ¬ (inp.hasSyncBatchBuffer ∧
        mi.batchBufferStartStatus ≠ MOS_STATUS_SUCCESS) := by
      rintro ⟨hs, hb⟩; exact hb (hbbS hs)
    have e1 : ¬ ((¬ inp.componentIsCM ∧ inp.gpuContextInWatchdogList) ∧
        mi.watchdogStartStatus ≠ MOS_STATUS_SUCCESS) := by
      rintro ⟨hs, hb⟩; exact hb (hwdS hs)
    have e1x : ¬ ((inp.componentIsCM = false ∧ inp.gpuContextInWatchdogList = true) ∧
        mi.watchdogStartStatus ≠ MOS_STATUS_SUCCESS) := by
      rintro ⟨⟨hcm, hwdl⟩, hb⟩
      exact hb (hwdS ⟨by simp [hcm], hwdl⟩)
    simp [Mhw_SendGenericPrologCmdNext, e0, e1, e1x, hrcs, hflf]
  · intro hpp hbb hwd hpc hlri hfl
    have e0 : ¬ (inp.hasSyncBatchBuffer ∧
        mi.batchBufferStartStatus ≠ MOS_STATUS_SUCCESS) := by
      rintro ⟨hs, hb⟩; exact hb (hbb hs)
    have e1 : ¬ ((¬ inp.componentIsCM ∧ inp.gpuContextInWatchdogList) ∧
        mi.watchdogStartStatus ≠ MOS_STATUS_SUCCESS) := by
      rintro ⟨hs, hb⟩; exact hb (hwd hs)
    have e2 : ¬ (mi.pipeControlStatus 0 ≠ MOS_STATUS_SUCCESS) := by simp [hpc 0]
    have e3 : ¬ (mi.pipeControlStatus 1 ≠ MOS_STATUS_SUCCESS) := by simp [hpc 1]
    have e4 : ¬ (inp.umdSSEUEnable ∧
        mi.loadRegisterImmStatus ≠ MOS_STATUS_SUCCESS) := by
      rintro ⟨hs, hb⟩; exact hb hlri
    have e5 : ¬ (mi.flushDwStatus ≠ MOS_STATUS_SUCCESS) := by simp [hfl]
    have e1x : ¬ ((inp.componentIsCM = false ∧ inp.gpuContextInWatchdogList = true) ∧
        mi.watchdogStartStatus ≠ MOS_STATUS_SUCCESS) := by
      rintro ⟨⟨hcm, hwdl⟩, hb⟩
      exact hb (hwd ⟨by simp [hcm], hwdl⟩)
    by_cases hrcs : inp.rcsEngineUsed = true <;>
      simp [Mhw_SendGenericPrologCmdNext, e0, e1, e1x, e2, e3, e4, e5, hrcs, hpp]

def c7wos : PatchOsInterface :=
  ⟨MOS_STATUS_UNKNOWN, 0x1000, 0, fun _ => MOS_STATUS_SUCCESS, 0⟩

def c7wcmd : MOS_COMMAND_BUFFER := ⟨fun _ => 0, 0⟩

def c7wp : MHW_RESOURCE_PARAMS :=
  ⟨0, 0, 0, 0, false, 0, 0, 0, 0, MOS_PATCH_TYPE_BASE_ADDRESS, 0, 0, 0, ⟨none, 0, 0⟩⟩

/-- Like `c7wp` but with a nonzero upper-bound location offset, so the
second `pfnSetPatchEntry` call is reached. -/
def c7wpUB : MHW_RESOURCE_PARAMS :=
  ⟨0, 0, 0, 0, false, 0, 4, 0, 0, MOS_PATCH_TYPE_BASE_ADDRESS, 0, 0, 0, ⟨none, 0, 0⟩⟩

/-- Device layer whose first `pfnSetPatchEntry` call fails. -/
def c7wosP0 : PatchOsInterface :=
  ⟨MOS_STATUS_SUCCESS, 0x1000, 0,
    fun n => if n = 0 then MOS_STATUS_NO_SPACE else MOS_STATUS_SUCCESS, 0⟩

/-- Device layer whose second `pfnSetPatchEntry` call fails. -/
def c7wosP1 : PatchOsInterface :=
  ⟨MOS_STATUS_SUCCESS, 0x1000, 0,
    fun n => if n = 0 then MOS_STATUS_SUCCESS else MOS_STATUS_NO_SPACE, 0⟩

def c7wmi : MiInterfaceStatuses :=
  ⟨MOS_STATUS_SUCCESS, MOS_STATUS_SUCCESS, fun _ => MOS_STATUS_SUCCESS,
    MOS_STATUS_SUCCESS, MOS_STATUS_SUCCESS, MOS_STATUS_UNKNOWN⟩

def c7winp : PrologInputs := ⟨false, false, false, false, false, false⟩

def c7miBB : MiInterfaceStatuses :=
  ⟨MOS_STATUS_NO_SPACE, MOS_STATUS_SUCCESS, fun _ => MOS_STATUS_SUCCESS,
    MOS_STATUS_SUCCESS, MOS_STATUS_SUCCESS, MOS_STATUS_SUCCESS⟩

def c7miWD : MiInterfaceStatuses :=
  ⟨MOS_STATUS_SUCCESS, MOS_STATUS_NO_SPACE, fun _ => MOS_STATUS_SUCCESS,
    MOS_STATUS_SUCCESS, MOS_STATUS_SUCCESS, MOS_STATUS_SUCCESS⟩

def c7miPC0 : MiInterfaceStatuses :=
  ⟨MOS_STATUS_SUCCESS, MOS_STATUS_SUCCESS,
    fun n => if n = 0 then MOS_STATUS_NO_SPACE else MOS_STATUS_SUCCESS,
    MOS_STATUS_SUCCESS, MOS_STATUS_SUCCESS, MOS_STATUS_SUCCESS⟩

def c7miPC1 : MiInterfaceStatuses :=
  ⟨MOS_STATUS_SUCCESS, MOS_STATUS_SUCCESS,
    fun n => if n = 1 then MOS_STATUS_NO_SPACE else MOS_STATUS_SUCCESS,
    MOS_STATUS_SUCCESS, MOS_STATUS_SUCCESS, MOS_STATUS_SUCCESS⟩

def c7miLRI : MiInterfaceStatuses :=
  ⟨MOS_STATUS_SUCCESS, MOS_STATUS_SUCCESS, fun _ => MOS_STATUS_SUCCESS,
    MOS_STATUS_NO_SPACE, MOS_STATUS_SUCCESS, MOS_STATUS_SUCCESS⟩

def c7miFL : MiInterfaceStatuses :=
  ⟨MOS_STATUS_SUCCESS, MOS_STATUS_SUCCESS, fun _ => MOS_STATUS_SUCCESS,
    MOS_STATUS_SUCCESS, MOS_STATUS_NO_SPACE, MOS_STATUS_SUCCESS⟩

/-- Prologue inputs with a sync batch buffer (render class, SSEU on). -/
def c7winpSync : PrologInputs := ⟨true, false, true, true, true, false⟩

/-- Render-class prologue inputs without a sync batch buffer. -/
def c7winpRcs : PrologInputs := ⟨false, false, true, true, true, false⟩

/-- Non-render (video) prologue inputs. -/
def c7winpVd : PrologInputs := ⟨false, false, true, false, false, false⟩

/-- Witness for the amended C7: every checked sub-call failure propagates —
register resource (both paths), first and second set-patch-entry (both
paths), sync batch-buffer start, watchdog start, both PIPE_CONTROLs, the
power-state LRI, MI_FLUSH_DW, and the protected prologue. -/
theorem C7_failfast_checked_subcalls_witness :
    (c7wos.registerResourceStatus ≠ MOS_STATUS_SUCCESS ∧
     c7wosP0.setPatchEntryStatus 0 ≠ MOS_STATUS_SUCCESS ∧
     c7wosP1.setPatchEntryStatus 1 ≠ MOS_STATUS_SUCCESS ∧
     c7miBB.batchBufferStartStatus ≠ MOS_STATUS_SUCCESS ∧
     c7miWD.watchdogStartStatus ≠ MOS_STATUS_SUCCESS ∧
     c7miPC0.pipeControlStatus 0 ≠ MOS_STATUS_SUCCESS ∧
     c7miPC1.pipeControlStatus 1 ≠ MOS_STATUS_SUCCESS ∧
     c7miLRI.loadRegisterImmStatus ≠ MOS_STATUS_SUCCESS ∧
     c7miFL.flushDwStatus ≠ MOS_STATUS_SUCCESS ∧
     c7wmi.protectedPrologStatus ≠ MOS_STATUS_SUCCESS) ∧
    (Mhw_AddResourceToCmd_GfxAddress c7wos c7wcmd c7wp).status
      = c7wos.registerResourceStatus ∧
    (Mhw_AddResourceToCmd_PatchList c7wos c7wcmd c7wp).status
      = c7wos.registerResourceStatus ∧
    (Mhw_AddResourceToCmd_GfxAddress c7wosP0 c7wcmd c7wp).status
      = c7wosP0.setPatchEntryStatus 0 ∧
    (Mhw_AddResourceToCmd_GfxAddress c7wosP1 c7wcmd c7wpUB).status
      = c7wosP1.setPatchEntryStatus 1 ∧
    (Mhw_AddResourceToCmd_PatchList c7wosP0 c7wcmd c7wp).status
      = c7wosP0.setPatchEntryStatus 0 ∧
    (Mhw_AddResourceToCmd_PatchList c7wosP1 c7wcmd c7wpUB).status
      = c7wosP1.setPatchEntryStatus 1 ∧
    (Mhw_SendGenericPrologCmdNext c7miBB c7winpSync).1
      = c7miBB.batchBufferStartStatus ∧
    (Mhw_SendGenericPrologCmdNext c7miWD c7winpRcs).1
      = c7miWD.watchdogStartStatus ∧
    (Mhw_SendGenericPrologCmdNext c7miPC0 c7winpRcs).1
      = c7miPC0.pipeControlStatus 0 ∧
    (Mhw_SendGenericPrologCmdNext c7miPC1 c7winpRcs).1
      = c7miPC1.pipeControlStatus 1 ∧
    (Mhw_SendGenericPrologCmdNext c7miLRI c7winpRcs).1
      = c7miLRI.loadRegisterImmStatus ∧
    (Mhw_SendGenericPrologCmdNext c7miFL c7winpVd).1
      = c7miFL.flushDwStatus ∧
    (Mhw_SendGenericPrologCmdNext c7wmi c7winp).1 = c7wmi.protectedPrologStatus :=
  ⟨⟨by decide, by decide, by decide, by decide, by decide, by decide, by decide,
    by decide, by decide, by decide⟩,
   ((C7_failfast_checked_subcalls c7wos c7wcmd c7wp c7wmi c7winp).1 (by decide)).1,
   ((C7_failfast_checked_subcalls c7wos c7wcmd c7wp c7wmi c7winp).1 (by decide)).2,
   (C7_failfast_checked_subcalls c7wosP0 c7wcmd c7wp c7wmi c7winp).2.1
     rfl (by decide) (by decide),
   (C7_failfast_checked_subcalls c7wosP1 c7wcmd c7wpUB c7wmi c7winp).2.2.1
     rfl (by decide) (by decide) (by decide) (by decide),
   (C7_failfast_checked_subcalls c7wosP0 c7wcmd c7wp c7wmi c7winp).2.2.2.1
     rfl (by decide),
   (C7_failfast_checked_subcalls c7wosP1 c7wcmd c7wpUB c7wmi c7winp).2.2.2.2.1
     rfl (by decide) (by decide) (by decide),
   (C7_failfast_checked_subcalls c7wos c7wcmd c7wp c7miBB c7winpSync).2.2.2.2.2.1
     rfl (by decide),
   (C7_failfast_checked_subcalls c7wos c7wcmd c7wp c7miWD c7winpRcs).2.2.2.2.2.2.1
     (fun _ => rfl) rfl rfl (by decide),
   (C7_failfast_checked_subcalls c7wos c7wcmd c7wp c7miPC0
       c7winpRcs).2.2.2.2.2.2.2.1
     (fun _ => rfl) (fun _ => rfl) rfl (by decide),
   (C7_failfast_checked_subcalls c7wos c7wcmd c7wp c7miPC1
       c7winpRcs).2.2.2.2.2.2.2.2.1
     (fun _ => rfl) (fun _ => rfl) rfl (by decide) (by decide),
   (C7_failfast_checked_subcalls c7wos c7wcmd c7wp c7miLRI
       c7winpRcs).2.2.2.2.2.2.2.2.2.1
     (fun _ => rfl) (fun _ => rfl) rfl (by decide) (by decide) rfl (by decide),
   (C7_failfast_checked_subcalls c7wos c7wcmd c7wp c7miFL
       c7winpVd).2.2.2.2.2.2.2.2.2.2.1
     (fun _ => rfl) (fun _ => rfl) rfl (by decide),
   (C7_failfast_checked_subcalls c7wos c7wcmd c7wp c7wmi
       c7winp).2.2.2.2.2.2.2.2.2.2.2
     (by decide) (fun _ => rfl) (fun _ => rfl) (fun _ => rfl) rfl rfl⟩

/- ------------------------------------------------------------------ -/
/- Batch-buffer allocator / lifecycle manager                         -/
/- ------------------------------------------------------------------ -/

/-- `MHW_BATCH_BUFFER` bookkeeping state.  `pData` models the CPU mapping
obtained from `pfnLockResource` (`none` = null).  `pNext`/`pPrev` are node
identifiers of the intrusive list (used by the list-linkage model).
`osResourceAllocated` tracks whether the underlying `OsResource` currently
holds a live allocation. -/
structure MHW_BATCH_BUFFER where
  iSize : Int
  count : Nat
  iRemaining : Int
  iCurrent : Int
  bLocked : Bool
  bBusy : Bool
  dwCmdBufId : Nat
  pData : Option Nat
  pNext : Option Nat
  pPrev : Option Nat
  osResourceAllocated : Bool
deriving DecidableEq, Repr

/-- The slice of the MOS interface consumed by the batch-buffer routines:
result of `pfnLockResource` (a pointer or null), and the statuses of
`pfnUnlockResource` and `pfnAllocateResource`. -/
structure BbOsInterface where
  lockResult : Option Nat
  unlockStatus : MOS_STATUS
  allocateStatus : MOS_STATUS
deriving DecidableEq, Repr

/-- `MHW_CACHELINE_SIZE` (64) and `MOS_PAGE_SIZE` (4096), as used by
`Mhw_AllocateBb`. -/
def MHW_CACHELINE_SIZE : Nat := 64

def MOS_PAGE_SIZE : Nat := 4096

/-- Embedding of `Mhw_LockBb` (mhw_utilities_next.cpp lines 1146-1179).
A lock of an already-locked buffer returns `MOS_STATUS_UNKNOWN` without
touching the state; a null mapping from the device layer leaves `pData`
null and returns the null-pointer status. -/
def Mhw_LockBb (os : BbOsInterface) (bb : MHW_BATCH_BUFFER) :
    MOS_STATUS × MHW_BATCH_BUFFER :=
  if bb.bLocked then
    (MOS_STATUS_UNKNOWN, bb)
  else
    match os.lockResult with
    | none => (MOS_STATUS_NULL_POINTER, { bb with pData := none })
    | some ptr => (MOS_STATUS_SUCCESS, { bb with pData := some ptr, bLocked := true })

/-- Embedding of `Mhw_UnlockBb` (mhw_utilities_next.cpp lines 1192-1228).
Unlocking a buffer that is not locked returns `MOS_STATUS_UNKNOWN`; with
`bResetBuffer` the cursor bookkeeping is reset to "empty" BEFORE the
device unlock is attempted. -/
def Mhw_UnlockBb (os : BbOsInterface) (bb : MHW_BATCH_BUFFER) (bResetBuffer : Bool) :
    MOS_STATUS × MHW_BATCH_BUFFER :=
  if ¬ bb.bLocked then
    (MOS_STATUS_UNKNOWN, bb)
  else
    let bb1 := if bResetBuffer then { bb with iRemaining := bb.iSize, iCurrent := 0 } else bb
    if os.unlockStatus ≠ MOS_STATUS_SUCCESS then
      (os.unlockStatus, bb1)
    else
      (MOS_STATUS_SUCCESS, { bb1 with bLocked := false, pData := none })

/-- Embedding of `Mhw_AllocateBb` (mhw_utilities_next.cpp lines 995-1074)
for a null `pBatchBufferList` (the list-linkage variant is modelled
separately).  The requested size is padded by `8 * MHW_CACHELINE_SIZE`,
rounded up to the page size, and multiplied by `batchCount`; on success
the bookkeeping is initialised (cursor 0, unlocked, not busy, generation
id 0).  The caller-asserted precondition `!(notLockable && inSystemMem)`
and the memory-pool selection have no effect on the modelled state. -/
def Mhw_AllocateBb (os : BbOsInterface) (bb : MHW_BATCH_BUFFER)
    (dwSize : Nat) (batchCount : Nat) : MOS_STATUS × MHW_BATCH_BUFFER :=
  let paddedSize := MOS_ALIGN_CEIL32 (dwSize + 8 * MHW_CACHELINE_SIZE) MOS_PAGE_SIZE
  if os.allocateStatus ≠ MOS_STATUS_SUCCESS then
    (os.allocateStatus, bb)
  else
    (MOS_STATUS_SUCCESS,
      { bb with
          osResourceAllocated := true,
          iSize := (paddedSize : Int),
          count := batchCount,
          iRemaining := (paddedSize : Int),
          iCurrent := 0,
          bLocked := false,
          bBusy := false,
          dwCmdBufId := 0 })

/-- Embedding of `Mhw_FreeBb` (mhw_utilities_next.cpp lines 1087-1135) for
a null `pBatchBufferList`: a still-locked buffer is first force-unlocked
with reset (propagating a failing unlock), the resource is freed, and the
size / count / cursor bookkeeping is zeroed. -/
def Mhw_FreeBb (os : BbOsInterface) (bb : MHW_BATCH_BUFFER) :
    MOS_STATUS × MHW_BATCH_BUFFER :=
  if bb.bLocked then
    match Mhw_UnlockBb os bb true with
    | (s, bb1) =>
      if s ≠ MOS_STATUS_SUCCESS then (s, bb1)
      else
        (MOS_STATUS_SUCCESS,
          { bb1 with
              osResourceAllocated := false
              dwCmdBufId := 0
              iSize := 0
              count := 0
              iCurrent := 0 })
  else
    (MOS_STATUS_SUCCESS,
      { bb with
          osResourceAllocated := false
          dwCmdBufId := 0
          iSize := 0
          count := 0
          iCurrent := 0 })

/-- C5: the batch-buffer lifecycle state machine — Lock on a locked buffer
fails (no state change); Unlock on an unlocked buffer fails (no state
change); Allocate → Lock → Unlock(reset) → Lock succeeds; Free on a
still-locked buffer force-unlocks it with reset (so `bLocked` clears,
`pData` nulls and `iRemaining` is reset to the old `iSize`) and zeroes the
size, count and cursor bookkeeping. -/
theorem C5_bb_lifecycle_state_machine :
    (∀ os bb, bb.bLocked = true →
      (Mhw_LockBb os bb).1 = MOS_STATUS_UNKNOWN ∧ (Mhw_LockBb os bb).2 = bb) ∧
    (∀ os bb r, bb.bLocked = false →
      (Mhw_UnlockBb os bb r).1 = MOS_STATUS_UNKNOWN ∧ (Mhw_UnlockBb os bb r).2 = bb) ∧
    (∀ os bb dwSize batchCount ptr, os.allocateStatus = MOS_STATUS_SUCCESS →
      os.lockResult = some ptr → os.unlockStatus = MOS_STATUS_SUCCESS →
      (Mhw_AllocateBb os bb dwSize batchCount).1 = MOS_STATUS_SUCCESS ∧
      (Mhw_LockBb os (Mhw_AllocateBb os bb dwSize batchCount).2).1
        = MOS_STATUS_SUCCESS ∧
      (Mhw_UnlockBb os (Mhw_LockBb os (Mhw_AllocateBb os bb dwSize batchCount).2).2
          true).1 = MOS_STATUS_SUCCESS ∧
      (Mhw_LockBb os (Mhw_UnlockBb os
          (Mhw_LockBb os (Mhw_AllocateBb os bb dwSize batchCount).2).2 true).2).1
        = MOS_STATUS_SUCCESS) ∧
    (∀ os bb, bb.bLocked = true → os.unlockStatus = MOS_STATUS_SUCCESS →
      (Mhw_FreeBb os bb).1 = MOS_STATUS_SUCCESS ∧
      (Mhw_FreeBb os bb).2.bLocked = false ∧
      (Mhw_FreeBb os bb).2.pData = none ∧
      (Mhw_FreeBb os bb).2.iRemaining = bb.iSize ∧
      (Mhw_FreeBb os bb).2.iSize = 0 ∧
      (Mhw_FreeBb os bb).2.count = 0 ∧
      (Mhw_FreeBb os bb).2.iCurrent = 0) := by
  refine ⟨?_, ?_, ?_, ?_⟩
  · intro os bb h
    constructor <;> simp [Mhw_LockBb, h]
  · intro os bb r h
    constructor <;> simp [Mhw_UnlockBb, h]
  · intro os bb dwSize batchCount ptr hall hlock hunlock
    refine ⟨?_, ?_, ?_, ?_⟩ <;>
      simp [Mhw_AllocateBb, Mhw_LockBb, Mhw_UnlockBb, hall, hlock, hunlock]
  · intro os bb h hunlock
    refine ⟨?_, ?_, ?_, ?_, ?_, ?_, ?_⟩ <;>
      simp [Mhw_FreeBb, Mhw_UnlockBb, h, hunlock]

def c5os : BbOsInterface := ⟨some 1, MOS_STATUS_SUCCESS, MOS_STATUS_SUCCESS⟩

def c5locked : MHW_BATCH_BUFFER :=
  ⟨4096, 1, 4096, 128, true, false, 0, some 9, none, none, true⟩

def c5unlocked : MHW_BATCH_BUFFER :=
  ⟨4096, 1, 4096, 0, false, false, 0, none, none, none, true⟩

/-- Witness for C5 at concrete buffers (one locked, one unlocked). -/
theorem C5_bb_lifecycle_state_machine_witness :
    (c5locked.bLocked = true ∧ c5unlocked.bLocked = false ∧
     c5os.allocateStatus = MOS_STATUS_SUCCESS ∧ c5os.lockResult = some 1 ∧
     c5os.unlockStatus = MOS_STATUS_SUCCESS) ∧
    (Mhw_LockBb c5os c5locked).1 = MOS_STATUS_UNKNOWN ∧
    (Mhw_UnlockBb c5os c5unlocked true).1 = MOS_STATUS_UNKNOWN ∧
    (Mhw_LockBb c5os (Mhw_UnlockBb c5os
        (Mhw_LockBb c5os (Mhw_AllocateBb c5os c5unlocked 100 1).2).2 true).2).1
      = MOS_STATUS_SUCCESS ∧
    (Mhw_FreeBb c5os c5locked).1 = MOS_STATUS_SUCCESS ∧
    (Mhw_FreeBb c5os c5locked).2.iSize = 0 :=
  ⟨⟨rfl, rfl, rfl, rfl, rfl⟩,
   (C5_bb_lifecycle_state_machine.1 c5os c5locked rfl).1,
   (C5_bb_lifecycle_state_machine.2.1 c5os c5unlocked true rfl).1,
   (C5_bb_lifecycle_state_machine.2.2.1 c5os c5unlocked 100 1 1 rfl rfl rfl).2.2.2,
   (C5_bb_lifecycle_state_machine.2.2.2 c5os c5locked rfl rfl).1,
   (C5_bb_lifecycle_state_machine.2.2.2 c5os c5locked rfl rfl).2.2.2.2.1⟩

/-- C10: on a locked buffer (device unlock succeeding), `Mhw_UnlockBb` with
`bResetBuffer = false` clears exactly the lock state (`bLocked := false`,
`pData := none`) leaving `iCurrent`, `iRemaining`, `iSize` and `count`
unchanged; with `bResetBuffer = true` it additionally sets `iRemaining` to
`iSize` and `iCurrent` to 0. -/
theorem C10_unlock_frame (os : BbOsInterface) (bb : MHW_BATCH_BUFFER)
    (hl : bb.bLocked = true) (hu : os.unlockStatus = MOS_STATUS_SUCCESS) :
    Mhw_UnlockBb os bb false =
      (MOS_STATUS_SUCCESS, { bb with bLocked := false, pData := none }) ∧
    Mhw_UnlockBb os bb true =
      (MOS_STATUS_SUCCESS,
        { bb with iRemaining := bb.iSize, iCurrent := 0,
                  bLocked := false, pData := none }) := by
  constructor <;> simp [Mhw_UnlockBb, hl, hu]

/-- Witness for C10 at a concrete locked buffer. -/
theorem C10_unlock_frame_witness :
    (c5locked.bLocked = true ∧ c5os.unlockStatus = MOS_STATUS_SUCCESS) ∧
    Mhw_UnlockBb c5os c5locked false =
      (MOS_STATUS_SUCCESS, { c5locked with bLocked := false, pData := none }) ∧
    Mhw_UnlockBb c5os c5locked true =
      (MOS_STATUS_SUCCESS,
        { c5locked with iRemaining := c5locked.iSize, iCurrent := 0,
                        bLocked := false, pData := none }) :=
  ⟨⟨rfl, rfl⟩,
   (C10_unlock_frame c5os c5locked rfl rfl).1,
   (C10_unlock_frame c5os c5locked rfl rfl).2⟩

/- ------------------------------------------------------------------ -/
/- Batch-buffer list linkage (Mhw_AllocateBb / Mhw_FreeBb with a      -/
/- caller-owned list head)                                            -/
/- ------------------------------------------------------------------ -/

/-- Embedding of the list-insertion variant of `Mhw_AllocateBb` (lines
995-1074): batch-buffer records live in a heap indexed by node ids;
`pBatchBufferList` is the VALUE of the caller's head pointer — the C
parameter is `PMHW_BATCH_BUFFER` passed by value, so the function cannot
change the caller's variable.  The returned `Option Nat` is the final
value of the LOCAL `pBatchBufferList` after the dead assignment
`pBatchBufferList = pBatchBuffer` (line 1066); it never reaches the
caller. -/
def Mhw_AllocateBbList (os : BbOsInterface) (heap : Nat → MHW_BATCH_BUFFER)
    (newId : Nat) (dwSize batchCount : Nat) (pBatchBufferList : Option Nat) :
    MOS_STATUS × (Nat → MHW_BATCH_BUFFER) × Option Nat :=
  match Mhw_AllocateBb os (heap newId) dwSize batchCount with
  | (s, bbNew) =>
    if s ≠ MOS_STATUS_SUCCESS then (s, heap, pBatchBufferList)
    else
      let h1 := fun i => if i = newId then bbNew else heap i
      match pBatchBufferList with
      | none => (MOS_STATUS_SUCCESS, h1, none)
      | some hd =>
        -- pBatchBuffer->pNext = pBatchBufferList
        let h2 := fun i => if i = newId then { h1 newId with pNext := some hd } else h1 i
        -- pBatchBufferList = pBatchBuffer  (assignment to the by-value
        -- parameter: visible only in the local variable)
        let localHead := some newId
        -- if (pBatchBuffer->pNext) pBatchBuffer->pNext->pPrev = pBatchBuffer
        let h3 := fun i => if i = hd then { h2 hd with pPrev := some newId } else h2 i
        (MOS_STATUS_SUCCESS, h3, localHead)

/-- Embedding of the list-unlinking variant of `Mhw_FreeBb` (lines
1087-1135).  As above, the final component is the LOCAL value of
`pBatchBufferList` after the dead head-advance assignment
`pBatchBufferList = pBatchBuffer->pNext` (line 1128); the caller's head
variable keeps its old value. -/
def Mhw_FreeBbList (os : BbOsInterface) (heap : Nat → MHW_BATCH_BUFFER)
    (bbId : Nat) (pBatchBufferList : Option Nat) :
    MOS_STATUS × (Nat → MHW_BATCH_BUFFER) × Option Nat :=
  let bb := heap bbId
  match (if bb.bLocked then Mhw_UnlockBb os bb true else (MOS_STATUS_SUCCESS, bb)) with
  | (s, bb1) =>
    if s ≠ MOS_STATUS_SUCCESS then
      (s, fun i => if i = bbId then bb1 else heap i, pBatchBufferList)
    else
      let bb2 : MHW_BATCH_BUFFER :=
        { bb1 with
            osResourceAllocated := false
            dwCmdBufId := 0
            iSize := 0
            count := 0
            iCurrent := 0 }
      let h2 := fun i => if i = bbId then bb2 else heap i
      match pBatchBufferList with
      | none => (MOS_STATUS_SUCCESS, h2, none)
      | some _ =>
        -- if (pBatchBuffer->pNext) pNext->pPrev = pPrev
        let h3 :=
          match bb2.pNext with
          | some nid =>
            fun i => if i = nid then { h2 nid with pPrev := bb2.pPrev } else h2 i
          | none => h2
        -- if (pPrev) pPrev->pNext = pNext
        -- else pBatchBufferList = pNext  (assignment to the by-value parameter)
        let h4 :=
          match bb2.pPrev with
          | some pid =>
            fun i => if i = pid then { h3 pid with pNext := bb2.pNext } else h3 i
          | none => h3
        let localHead :=
          match bb2.pPrev with
          | some _ => pBatchBufferList
          | none => bb2.pNext
        -- pBatchBuffer->pPrev = pBatchBuffer->pNext = nullptr
        let h5 := fun i => if i = bbId then { h4 bbId with pPrev := none, pNext := none }
          else h4 i
        (MOS_STATUS_SUCCESS, h5, localHead)

/-- A two-node list: node 0 (the head, `pPrev = null`, `pNext = 1`) and
node 1 (`pPrev = 0`, `pNext = null`), both allocated and unlocked. -/
def c6heap : Nat → MHW_BATCH_BUFFER := fun i =>
  if i = 0 then ⟨4096, 1, 4096, 0, false, false, 0, none, some 1, none, true⟩
  else if i = 1 then ⟨4096, 1, 4096, 0, false, false, 0, none, none, some 0, true⟩
  else ⟨0, 0, 0, 0, false, false, 0, none, none, none, false⟩

def c6os : BbOsInterface := ⟨some 1, MOS_STATUS_SUCCESS, MOS_STATUS_SUCCESS⟩

/-- C6, code_bug demonstration: freeing the HEAD of a two-node list.  The
head-advance `pBatchBufferList = pBatchBuffer->pNext` (line 1128) is an
assignment to a pointer parameter passed BY VALUE, so although the local
variable is advanced to node 1, the caller's head variable still holds
node 0 — which after the free is a zeroed, unlinked, deallocated record
(`iSize = 0`, `pNext = null`): the caller's list is no longer traversable
to the surviving node 1, contradicting both the claim and the function's
own `[in/out]` documentation of `pBatchBufferList`.  The neighbour
patching itself is correct: node 1's `pPrev` is nulled. -/
theorem C6_free_head_dead_assignment :
    (Mhw_FreeBbList c6os c6heap 0 (some 0)).1 = MOS_STATUS_SUCCESS ∧
    -- the local head was advanced to node 1 ...
    (Mhw_FreeBbList c6os c6heap 0 (some 0)).2.2 = some 1 ∧
    -- ... but the caller's variable (by-value parameter) still holds node 0,
    -- which now is a freed, unlinked record:
    ((Mhw_FreeBbList c6os c6heap 0 (some 0)).2.1 0).osResourceAllocated = false ∧
    ((Mhw_FreeBbList c6os c6heap 0 (some 0)).2.1 0).iSize = 0 ∧
    ((Mhw_FreeBbList c6os c6heap 0 (some 0)).2.1 0).pNext = none ∧
    -- the surviving node 1 is live with a correctly patched back-pointer:
    ((Mhw_FreeBbList c6os c6heap 0 (some 0)).2.1 1).osResourceAllocated = true ∧
    ((Mhw_FreeBbList c6os c6heap 0 (some 0)).2.1 1).pPrev = none := by
  refine ⟨by decide, by decide, by decide, by decide, by decide, by decide, by decide⟩

/- ------------------------------------------------------------------ -/
/- Polyphase coefficient calculators: center-tap balancing            -/
/- ------------------------------------------------------------------ -/

/-- Modelled from the spec: `NUM_POLYPHASE_TABLES` — the number of phases
used for internal calculations (32); defined in a header outside this
excerpt. -/
def NUM_POLYPHASE_TABLES : Nat := 32

/-- Modelled from the spec: `MHW_TABLE_PHASE_COUNT` — the chroma table
phase count (32); defined in a header outside this excerpt. -/
def MHW_TABLE_PHASE_COUNT : Nat := 32

/-- Modelled from the spec: `MHW_SCALER_UV_WIN_SIZE` — the chroma filter
window size; the source itself fixes it as 6 in the comment at line 941. -/
def MHW_SCALER_UV_WIN_SIZE : Nat := 6

/-- Modelled from the spec: the fixed-point precision
(`MHW_AVS_TBL_COEF_PREC` = `MHW_TBL_COEF_PREC` = 6, unit `0x40`, as
visible in `Mhw_SetNearestModeTable`). -/
def MHW_TBL_COEF_PREC : Nat := 6

/-- The center-tap correction shared by all three calculators:
`iCoefs[center] -= iSumQuantCoefs - dwTableCoefUnit` applied to one row
of quantized coefficients. -/
def fixCenterRow (row : List Int) (center : Nat) (unit : Int) : List Int :=
  row.set center (row.getD center 0 - (row.sum - unit))

theorem list_sum_set (l : List Int) (i : Nat) (a : Int) (h : i < l.length) :
    (l.set i a).sum = l.sum - l.getD i 0 + a := by
  induction l generalizing i with
  | nil => simp at h
  | cons x xs ih =>
    cases i with
    | zero => simp [List.set]; ring
    | succ n =>
      have hlen : n < xs.length := by simpa using h
      simp only [List.set, List.sum_cons, List.getD_cons_succ, ih n hlen]
      ring

/-- After the center-tap correction the row sums exactly to the unit. -/
theorem fixCenterRow_sum (row : List Int) (center : Nat) (unit : Int)
    (h : center < row.length) :
    (fixCenterRow row center unit).sum = unit := by
  unfold fixCenterRow
  rw [list_sum_set row center _ h]
  ring

/-- Row balancing of `Mhw_CalcPolyphaseTablesY` (lines 779-787): the raw
quantized row (result of the float Lanczos sampling, optional high-pass
convolution and `floor(0.5 + unit*coef/sum)` quantization of lines
722-777, abstracted here as an arbitrary integer row `quantRow` of length
`dwNumEntries`) has its center tap (first half of the phase range,
`i <= NUM_POLYPHASE_TABLES/2`) or center+1 tap (second half) adjusted by
the rounding residual. -/
def Mhw_CalcPolyphaseTablesY_balanceRow (quantRow : List Int) (i : Nat)
    (unit : Int) : List Int :=
  if i ≤ NUM_POLYPHASE_TABLES / 2 then
    fixCenterRow quantRow (quantRow.length / 2 - 1) unit
  else
    fixCenterRow quantRow (quantRow.length / 2 - 1 + 1) unit

/-- Row balancing of `Mhw_CalcPolyphaseTablesUV` (lines 867-875):
`centerPixel = MHW_SCALER_UV_WIN_SIZE/2 - 1`, split at
`i <= phaseCount/2`. -/
def Mhw_CalcPolyphaseTablesUV_balanceRow (quantRow : List Int) (i : Nat)
    (unit : Int) : List Int :=
  if i ≤ MHW_TABLE_PHASE_COUNT / 2 then
    fixCenterRow quantRow (MHW_SCALER_UV_WIN_SIZE / 2 - 1) unit
  else
    fixCenterRow quantRow (MHW_SCALER_UV_WIN_SIZE / 2 - 1 + 1) unit

/-- Row balancing of `Mhw_CalcPolyphaseTablesUVOffset` (lines 961-970):
the split point is shifted by the chroma-siting phase offset
(`adjusted_phase = i - iUvPhaseOffset`, signed). -/
def Mhw_CalcPolyphaseTablesUVOffset_balanceRow (quantRow : List Int) (i : Int)
    (iUvPhaseOffset : Int) (unit : Int) : List Int :=
  if i - iUvPhaseOffset ≤ (MHW_TABLE_PHASE_COUNT : Int) / 2 then
    fixCenterRow quantRow (MHW_SCALER_UV_WIN_SIZE / 2 - 1) unit
  else
    fixCenterRow quantRow (MHW_SCALER_UV_WIN_SIZE / 2 - 1 + 1) unit

/-- C4: for every phase row of all three polyphase calculators — i.e. for
every raw quantized integer row the float pipeline can produce (hence for
every supported phase count, both filter-width modes and every scale
factor), every phase index, and every phase offset — the balanced row sums
exactly to the fixed-point unit `tableCoefUnit`. -/
theorem C4_polyphase_rows_balance (quantRow : List Int) (i : Nat) (iInt : Int)
    (unit : Int) (iUvPhaseOffset : Int) :
    (2 ≤ quantRow.length →
      (Mhw_CalcPolyphaseTablesY_balanceRow quantRow i unit).sum = unit) ∧
    (quantRow.length = MHW_SCALER_UV_WIN_SIZE →
      (Mhw_CalcPolyphaseTablesUV_balanceRow quantRow i unit).sum = unit) ∧
    (quantRow.length = MHW_SCALER_UV_WIN_SIZE →
      (Mhw_CalcPolyphaseTablesUVOffset_balanceRow quantRow iInt iUvPhaseOffset
        unit).sum = unit) := by
  refine ⟨?_, ?_, ?_⟩
  · intro h
    unfold Mhw_CalcPolyphaseTablesY_balanceRow
    split <;> exact fixCenterRow_sum _ _ _ (by omega)
  · intro h
    unfold Mhw_CalcPolyphaseTablesUV_balanceRow
    split <;>
      exact fixCenterRow_sum _ _ _ (by simp [h, MHW_SCALER_UV_WIN_SIZE])
  · intro h
    unfold Mhw_CalcPolyphaseTablesUVOffset_balanceRow
    split <;>
      exact fixCenterRow_sum _ _ _ (by simp [h, MHW_SCALER_UV_WIN_SIZE])

/-- Witness for C4 at a concrete quantized row of window size 6 whose raw
sum (64 + some rounding residual) differs from the unit. -/
theorem C4_polyphase_rows_balance_witness :
    ((2:Nat) ≤ ([10, 20, 30, 3, 1, 0] : List Int).length ∧
     ([10, 20, 30, 3, 1, 0] : List Int).length = MHW_SCALER_UV_WIN_SIZE) ∧
    (Mhw_CalcPolyphaseTablesY_balanceRow [10, 20, 30, 3, 1, 0] 0 64).sum = 64 ∧
    (Mhw_CalcPolyphaseTablesUV_balanceRow [10, 20, 30, 3, 1, 0] 20 64).sum = 64 ∧
    (Mhw_CalcPolyphaseTablesUVOffset_balanceRow [10, 20, 30, 3, 1, 0] 3 (-1)
        64).sum = 64 :=
  ⟨⟨by decide, by decide⟩,
   (C4_polyphase_rows_balance [10, 20, 30, 3, 1, 0] 0 3 64 (-1)).1 (by decide),
   (C4_polyphase_rows_balance [10, 20, 30, 3, 1, 0] 20 3 64 (-1)).2.1 (by decide),
   (C4_polyphase_rows_balance [10, 20, 30, 3, 1, 0] 20 3 64 (-1)).2.2 (by decide)⟩
